import Mathlib

/-!
Shallow embedding of the viseme/blendshape synchronization engine of the
viseme-sync repository, together with theorems checking the claims of its
specification.  Weights are modelled as rationals; JavaScript mutable
number arrays become functions `Nat → ℚ` updated pointwise; objects keyed
by channel name become association lists `List (String × Nat)` or
functions `String → ℚ`.  Each definition names the source file and
function it is translated from.
-/

namespace VisemeSync

/-- Pointwise update of a `Nat`-indexed influence array:
`influences[i] = v`. -/
def updFn (f : Nat → ℚ) (i : Nat) (v : ℚ) : Nat → ℚ :=
  fun j => if j = i then v else f j

/-- Association-list lookup for morph-target dictionaries
(`dictionary[name]` in the source). -/
def idxLookup : List (String × Nat) → String → Option Nat
  | [], _ => none
  | p :: rest, n => if p.1 = n then some p.2 else idxLookup rest n

/-- One step of a `forEach` write loop: if `idxOf` maps channel name `n`
to a concrete morph index, write `val n` into that slot. -/
def writeSlot (idxOf : String → Option Nat) (val : String → ℚ) (n : String)
    (f : Nat → ℚ) : Nat → ℚ :=
  match idxOf n with
  | some i => updFn f i (val n)
  | none => f

/-- The shared shape of every `forEach` write loop in the source:
for each channel name in `names` (in order), if `idxOf` maps it to a
concrete morph index, write `val name` into that slot. -/
def writeChannels (idxOf : String → Option Nat) (val : String → ℚ) :
    List String → (Nat → ℚ) → Nat → ℚ
  | [], f => f
  | n :: rest, f => writeChannels idxOf val rest (writeSlot idxOf val n f)

/-- Write loop over a name-keyed value table
(`this.currentValues[name] = ...` for each name in a list).  The name
lists it is used with have pairwise-distinct entries, so the loop writes
each key exactly once and is rendered pointwise. -/
def writeNamed (val : String → ℚ) (names : List String) (f : String → ℚ) : String → ℚ :=
  fun u => if u ∈ names then val u else f u

/-- `Math.max(0, Math.min(1, x))` from blendshape-mapper.js. -/
def clamp01 (x : ℚ) : ℚ := max 0 (min 1 x)

namespace VisemeMapper

/-- viseme-mapper.js `OCULUS_VISEMES`. -/
def OCULUS_VISEMES : List String :=
  ["viseme_sil", "viseme_PP", "viseme_FF", "viseme_TH", "viseme_DD",
   "viseme_kk", "viseme_CH", "viseme_SS", "viseme_nn", "viseme_RR",
   "viseme_aa", "viseme_E", "viseme_I", "viseme_O", "viseme_U"]

/-- viseme-mapper.js `JAW_TARGETS`. -/
def JAW_TARGETS : List String :=
  ["jawOpen", "jawForward", "jawLeft", "jawRight", "mouthOpen"]

/-- The name of the dampened jaw channel. -/
def jawForwardName : String := "jawForward"

/-- viseme-mapper.js `AZURE_TO_OCULUS`: Azure viseme id (0-21) to Oculus
viseme name; ids outside the table have no mapping. -/
def AZURE_TO_OCULUS (id : Nat) : Option String :=
  match id with
  | 0 => some ("viseme_sil")
  | 1 => some ("viseme_aa")
  | 2 => some ("viseme_aa")
  | 3 => some ("viseme_O")
  | 4 => some ("viseme_E")
  | 5 => some ("viseme_E")
  | 6 => some ("viseme_I")
  | 7 => some ("viseme_U")
  | 8 => some ("viseme_O")
  | 9 => some ("viseme_aa")
  | 10 => some ("viseme_O")
  | 11 => some ("viseme_aa")
  | 12 => some ("viseme_RR")
  | 13 => some ("viseme_RR")
  | 14 => some ("viseme_nn")
  | 15 => some ("viseme_SS")
  | 16 => some ("viseme_CH")
  | 17 => some ("viseme_TH")
  | 18 => some ("viseme_FF")
  | 19 => some ("viseme_DD")
  | 20 => some ("viseme_kk")
  | 21 => some ("viseme_PP")
  | _ => none

/-- One entry of `meshMappings` in viseme-mapper.js: the viseme and jaw
index tables recorded at mapper setup, plus the live
`morphTargetInfluences` array of the mesh part. -/
structure Mesh where
  visemeIndices : List (String × Nat)
  jawIndices : List (String × Nat)
  influences : Nat → ℚ

instance : Inhabited Mesh :=
  ⟨{ visemeIndices := [], jawIndices := [], influences := fun _ => 0 }⟩

/-- Well-formedness of a recorded mesh mapping, as produced by the
mapper setup from a real `morphTargetDictionary`: the recorded channel
names are pairwise distinct and so are the recorded morph indices
(across the viseme and jaw tables together), because a dictionary maps
distinct names to distinct indices. -/
def Mesh.wfIdx (m : Mesh) : Prop :=
  ((m.visemeIndices ++ m.jawIndices).map Prod.fst).Nodup ∧
  ((m.visemeIndices ++ m.jawIndices).map Prod.snd).Nodup

instance (m : Mesh) : Decidable m.wfIdx :=
  inferInstanceAs (Decidable (_ ∧ _))

/-- viseme-mapper.js `corrections` (the unused `jawBackwardBias` constant
is omitted; the source never reads it). -/
structure Corrections where
  jawForwardDampen : ℚ
  teethSync : Bool

/-- The mutable state of the `VisemeMapper` object.  `headIdx` and
`teethIdx` are the positions, in `meshes`, of the mesh parts the source
stores as `this.headMesh` / `this.teethMesh` (if they carry mappings). -/
structure State where
  targetInfluences : String → ℚ
  meshes : List Mesh
  headIdx : Option Nat
  teethIdx : Option Nat
  corrections : Corrections
  currentViseme : Option String

/-- The body of `_applyToMeshes` for a single mesh, first half: for each
viseme name in the vocabulary present in the mesh's table, write the
current target influence. -/
def applyVisemesToMesh (ti : String → ℚ) (m : Mesh) : Mesh :=
  { m with influences := writeChannels (idxLookup m.visemeIndices) ti OCULUS_VISEMES m.influences }

/-- The body of `_applyToMeshes` for a single mesh, second half: dampen
the mesh's current `jawForward` value by `corrections.jawForwardDampen`. -/
def dampenJawForward (d : ℚ) (m : Mesh) : Mesh :=
  match idxLookup m.jawIndices jawForwardName with
  | some i => { m with influences := updFn m.influences i (m.influences i * d) }
  | none => m

/-- The per-mesh step of `_applyToMeshes`: viseme writes followed by the
underbite correction. -/
def applyMeshStep (ti : String → ℚ) (d : ℚ) (m : Mesh) : Mesh :=
  dampenJawForward d (applyVisemesToMesh ti m)

/-- `_syncTeethWithHead`, jaw loop: the teeth slot written for jaw name
`n` (defined only when both head and teeth expose `n`). -/
def syncJawIdx (head teeth : Mesh) (n : String) : Option Nat :=
  match idxLookup head.jawIndices n with
  | some _ => idxLookup teeth.jawIndices n
  | none => none

/-- `_syncTeethWithHead`, jaw loop: the value copied from the head for
jaw name `n` (`jawForward` is dampened a second time here). -/
def syncJawVal (head : Mesh) (d : ℚ) (n : String) : ℚ :=
  match idxLookup head.jawIndices n with
  | some hi => if n = jawForwardName then head.influences hi * d else head.influences hi
  | none => 0

/-- `_syncTeethWithHead`, viseme loop: the teeth slot written for viseme
name `n`. -/
def syncVisIdx (head teeth : Mesh) (n : String) : Option Nat :=
  match idxLookup head.visemeIndices n with
  | some _ => idxLookup teeth.visemeIndices n
  | none => none

/-- `_syncTeethWithHead`, viseme loop: the head value copied to the
teeth for viseme name `n`. -/
def syncVisVal (head : Mesh) (n : String) : ℚ :=
  match idxLookup head.visemeIndices n with
  | some hi => head.influences hi
  | none => 0

/-- viseme-mapper.js `_syncTeethWithHead` (lines 208-240): copy the jaw
targets (dampening `jawForward` again) and then the viseme channels from
the head mesh onto the teeth mesh.  A no-op when either mesh carries no
mapping, as in the source. -/
def syncTeethWithHead (st : State) : State :=
  match st.headIdx, st.teethIdx with
  | some h, some t =>
    match st.meshes.get? h, st.meshes.get? t with
    | some head, some teeth =>
      let f1 := writeChannels (syncJawIdx head teeth)
        (syncJawVal head st.corrections.jawForwardDampen) JAW_TARGETS teeth.influences
      let f2 := writeChannels (syncVisIdx head teeth) (syncVisVal head) OCULUS_VISEMES f1
      { st with meshes := st.meshes.set t { teeth with influences := f2 } }
    | _, _ => st
  | _, _ => st

/-- The tail of `_applyToMeshes`: sync the teeth with the head when the
correction is enabled and both meshes were found. -/
def applyToMeshesSync (st1 : State) : State :=
  if st1.corrections.teethSync && st1.headIdx.isSome && st1.teethIdx.isSome then
    syncTeethWithHead st1
  else st1

/-- viseme-mapper.js `_applyToMeshes` (lines 181-203): write the target
influences and the jawForward correction on every mapped mesh, then sync
the teeth with the head when enabled. -/
def applyToMeshes (st : State) : State :=
  applyToMeshesSync { st with
    meshes := st.meshes.map (applyMeshStep st.targetInfluences st.corrections.jawForwardDampen) }

/-- The `OCULUS_VISEMES.forEach` update loop inside `blendToViseme`:
`targetInfluences[v] += (target - targetInfluences[v]) * blendFactor`
with `target = intensity` for the active viseme and `0` otherwise.  The
vocabulary entries are pairwise distinct, so the loop updates each key
exactly once and is rendered pointwise. -/
def blendStep (tv : String) (bf inten : ℚ) (vocab : List String) (ti : String → ℚ) :
    String → ℚ :=
  fun u => if u ∈ vocab then ti u + ((if u = tv then inten else 0) - ti u) * bf else ti u

/-- viseme-mapper.js `blendToViseme` (lines 163-176): exponential blend
of the whole vocabulary toward the mapped target viseme, then apply to
all meshes.  Unknown viseme ids return the state unchanged. -/
def blendToViseme (st : State) (visemeId : Nat) (blendFactor intensity : ℚ) : State :=
  match AZURE_TO_OCULUS visemeId with
  | none => st
  | some targetViseme =>
    let st1 := { st with
      targetInfluences := blendStep targetViseme blendFactor intensity OCULUS_VISEMES st.targetInfluences }
    let st2 := applyToMeshes st1
    { st2 with currentViseme := some targetViseme }

/-- viseme-mapper.js `reset` (lines 245-258): zero the target influences
and, on every mesh, zero the slots recorded in `visemeIndices`.  The
source touches no other slots (in particular none from `jawIndices`). -/
def reset (st : State) : State :=
  { st with
    targetInfluences := fun v => if v ∈ OCULUS_VISEMES then 0 else st.targetInfluences v,
    meshes := st.meshes.map (fun m =>
      { m with influences := writeChannels (idxLookup m.visemeIndices) (fun _ => 0) OCULUS_VISEMES m.influences }),
    currentViseme := none }

end VisemeMapper

namespace BlendShapeMapper

/-- One entry of `meshMappings` in blendshape-mapper.js: the Azure-index
to mesh-index table plus the mesh's `morphTargetInfluences` array, whose
length is `size`. -/
structure Mesh where
  mapping : List (Nat × Nat)
  influences : Nat → ℚ
  size : Nat

instance : Inhabited Mesh := ⟨{ mapping := [], influences := fun _ => 0, size := 0 }⟩

/-- The mutable state of the `BlendShapeMapper` object. -/
structure State where
  meshes : List Mesh

/-- One step of the `applyFrame` write loop: for a recorded
`(azureIndex, meshIndex)` pair with `azureIndex` inside the frame, store
`clamp01(values[azureIndex] * intensity)`. -/
def frameSlot (values : List ℚ) (intensity : ℚ) (p : Nat × Nat) (f : Nat → ℚ) :
    Nat → ℚ :=
  if p.1 < values.length then updFn f p.2 (clamp01 (values.getD p.1 0 * intensity)) else f

/-- The write loop of `applyFrame` for one mesh, over the recorded
`(azureIndex, meshIndex)` pairs in order. -/
def applyFrameWrites (values : List ℚ) (intensity : ℚ) :
    List (Nat × Nat) → (Nat → ℚ) → Nat → ℚ
  | [], f => f
  | p :: rest, f => applyFrameWrites values intensity rest (frameSlot values intensity p f)

/-- blendshape-mapper.js `applyFrame` (lines 114-134): frames shorter
than 52 values are discarded; otherwise every mapped slot receives the
scaled, clamped frame value. -/
def applyFrame (st : State) (values : List ℚ) (intensity : ℚ) : State :=
  if values.length < 52 then st
  else { meshes := st.meshes.map (fun m =>
    { m with influences := applyFrameWrites values intensity m.mapping m.influences }) }

/-- blendshape-mapper.js `reset` (lines 139-146): zero every slot of each
mapped mesh's entire influence array (`for i in 0..length`). -/
def reset (st : State) : State :=
  { meshes := st.meshes.map (fun m =>
    { m with influences := fun j => if j < m.size then 0 else m.influences j }) }

/-- One step of the `lerpToFrame` write loop: for a recorded
`(azureIndex, meshIndex)` pair with `azureIndex` inside the frame,
interpolate the slot's current value toward the scaled, clamped frame
value by factor `t`. -/
def lerpSlot (targetValues : List ℚ) (intensity t : ℚ) (p : Nat × Nat)
    (f : Nat → ℚ) : Nat → ℚ :=
  if p.1 < targetValues.length then
    updFn f p.2 (f p.2 + (clamp01 (targetValues.getD p.1 0 * intensity) - f p.2) * t)
  else f

/-- The write loop of `lerpToFrame` for one mesh, over the recorded
`(azureIndex, meshIndex)` pairs in order. -/
def lerpWrites (targetValues : List ℚ) (intensity t : ℚ) :
    List (Nat × Nat) → (Nat → ℚ) → Nat → ℚ
  | [], f => f
  | p :: rest, f => lerpWrites targetValues intensity t rest (lerpSlot targetValues intensity t p f)

/-- blendshape-mapper.js `lerpToFrame` (lines 154-172): frames shorter
than 52 values are discarded; otherwise every mapped slot is
interpolated from its current value toward the scaled, clamped target
value by factor `t`. -/
def lerpToFrame (st : State) (targetValues : List ℚ) (t : ℚ) (intensity : ℚ) : State :=
  if targetValues.length < 52 then st
  else { meshes := st.meshes.map (fun m =>
    { m with influences := lerpWrites targetValues intensity t m.mapping m.influences }) }

end BlendShapeMapper

namespace A2F

/-- audio2face-client.js `arkitShapes` (52 names). -/
def arkitShapes : List String :=
  ["eyeBlinkLeft", "eyeBlinkRight",
   "eyeLookDownLeft", "eyeLookDownRight", "eyeLookInLeft", "eyeLookInRight",
   "eyeLookOutLeft", "eyeLookOutRight", "eyeLookUpLeft", "eyeLookUpRight",
   "eyeSquintLeft", "eyeSquintRight", "eyeWideLeft", "eyeWideRight",
   "browDownLeft", "browDownRight", "browInnerUp", "browOuterUpLeft", "browOuterUpRight",
   "cheekPuff", "cheekSquintLeft", "cheekSquintRight",
   "noseSneerLeft", "noseSneerRight",
   "jawForward", "jawLeft", "jawRight", "jawOpen",
   "mouthClose", "mouthFunnel", "mouthPucker", "mouthLeft", "mouthRight",
   "mouthSmileLeft", "mouthSmileRight", "mouthFrownLeft", "mouthFrownRight",
   "mouthDimpleLeft", "mouthDimpleRight", "mouthStretchLeft", "mouthStretchRight",
   "mouthRollLower", "mouthRollUpper", "mouthShrugLower", "mouthShrugUpper",
   "mouthPressLeft", "mouthPressRight", "mouthLowerDownLeft", "mouthLowerDownRight",
   "mouthUpperUpLeft", "mouthUpperUpRight",
   "tongueOut"]

/-- One entry of `meshMappings` in audio2face-client.js. -/
structure Mesh where
  indices : List (String × Nat)
  influences : Nat → ℚ

instance : Inhabited Mesh := ⟨{ indices := [], influences := fun _ => 0 }⟩

/-- The animation state of the `Audio2FaceClient` relevant to the
neutral-return animation: the name-keyed `currentValues` table and the
mapped meshes. -/
structure State where
  currentValues : String → ℚ
  meshes : List Mesh

/-- The mesh write loop shared by `_applyFrame`, `_smoothResetToNeutral`
and `reset`: copy `cur[name]` into every mapped slot of every mesh. -/
def applyValuesToMeshes (cur : String → ℚ) (meshes : List Mesh) : List Mesh :=
  meshes.map (fun m =>
    { m with influences := writeChannels (idxLookup m.indices) cur arkitShapes m.influences })

/-- One display tick of audio2face-client.js `_smoothResetToNeutral`
(lines 410-443): `t = min(elapsed/300, 1)`, cubic ease-out
`easeOut = 1 - (1-t)^3`, write `startValues[name] * (1 - easeOut)` for
every ARKit shape, apply to the meshes; the boolean is `t < 1`, i.e.
whether the animation schedules another tick (when it is false the
source instead emits the `speaking:false` completion signal). -/
def smoothResetTick (startValues : String → ℚ) (st : State) (elapsed : ℚ) :
    State × Bool :=
  let t := min (elapsed / 300) 1
  let easeOut := 1 - (1 - t) ^ 3
  let cur := writeNamed (fun n => startValues n * (1 - easeOut)) arkitShapes st.currentValues
  ({ currentValues := cur, meshes := applyValuesToMeshes cur st.meshes }, decide (t < 1))

end A2F

namespace AzureViseme

/-- One entry of `visemeQueue` in azure-services-viseme.js: a viseme id
and its audio offset in milliseconds. -/
structure Event where
  visemeId : Nat
  audioOffset : ℚ

/-- The animation/session state of the `AzureServicesViseme` object. -/
structure State where
  speechConfigSet : Bool
  visemeEnabled : Bool
  visemeIntensity : ℚ
  isSpeaking : Bool
  visemeQueue : List Event
  currentVisemeIndex : Nat
  playbackStartTime : Option ℚ
  animationFrameId : Bool
  currentSynthesisId : Nat
  mapper : VisemeMapper.State

/-- The `visemeReceived` handler installed by `setupSynthesizerEvents`
(azure-services-viseme.js lines 229-243).  `captured` is the `sessionId`
the closure captured when the synthesizer was created; a mismatch with
the current id returns immediately.  `audioOffsetTicks` is the raw
`e.audioOffset`, converted to milliseconds by dividing by 10000. -/
def visemeReceived (captured : Nat) (s : State) (visemeId : Nat)
    (audioOffsetTicks : ℚ) : State :=
  if captured ≠ s.currentSynthesisId then s
  else { s with visemeQueue :=
    s.visemeQueue ++ [{ visemeId := visemeId, audioOffset := audioOffsetTicks / 10000 }] }

/-- One tick of `processVisemes` (azure-services-viseme.js lines
262-294) at wall-clock `now`: guard on `isSpeaking`, `playbackStartTime`
and `visemeEnabled`; consume every queued event from the read cursor
whose offset has passed, applying each through
`VisemeMapper.blendToViseme(id, 0.4, visemeIntensity)`; reschedule while
still speaking.  Returns the new state, the list of events applied by
this tick (in application order) and whether the tick rescheduled. -/
def processVisemes (s : State) (now : ℚ) : State × List Event × Bool :=
  match s.playbackStartTime with
  | none => (s, [], false)
  | some t0 =>
    if s.isSpeaking && s.visemeEnabled then
      let elapsed := now - t0
      let due := (s.visemeQueue.drop s.currentVisemeIndex).takeWhile
        (fun ev => decide (ev.audioOffset ≤ elapsed))
      let mapper := due.foldl
        (fun m ev => VisemeMapper.blendToViseme m ev.visemeId (2/5) s.visemeIntensity) s.mapper
      ({ s with currentVisemeIndex := s.currentVisemeIndex + due.length,
                mapper := mapper, animationFrameId := true },
       due, true)
    else (s, [], false)

/-- The `player.onAudioStart` handler installed by `createSynthesizer`
(azure-services-viseme.js lines 155-166): record `t0`, rewind the read
cursor, mark speaking, and (when visemes are enabled) run
`processVisemes` synchronously.  The source closure captures no session
token and performs no token comparison; `captured` records the token
that was current when the player was created and is ignored by the
body, exactly as in the source. -/
def onAudioStart (captured : Nat) (s : State) (now : ℚ) :
    State × List Event × Bool :=
  let s1 := { s with playbackStartTime := some now, currentVisemeIndex := 0, isSpeaking := true }
  if s1.visemeEnabled then processVisemes s1 now else (s1, [], false)

/-- The observable outcome of one `speak` call: the new state, whether a
synthesis request was issued to the external collaborator, and the
session token captured by the handlers installed for that request. -/
structure SpeakResult where
  state : State
  issued : Bool
  capturedToken : Option Nat

/-- azure-services-viseme.js `speak` (lines 441-468): when speech is not
configured, log and return with no state change; otherwise increment the
session id, clear the queue, cursor, `t0` and any pending animation
frame, then create a fresh synthesizer (whose handlers capture the new
id, line 226) and issue the synthesis request — in both the viseme and
the audio-capture branch. -/
def speak (s : State) : SpeakResult :=
  if s.speechConfigSet then
    let s1 := { s with currentSynthesisId := s.currentSynthesisId + 1,
                       visemeQueue := [], currentVisemeIndex := 0,
                       playbackStartTime := none, animationFrameId := false }
    { state := s1, issued := true, capturedToken := some s1.currentSynthesisId }
  else { state := s, issued := false, capturedToken := none }

/-- A run of scheduler ticks at the given wall-clock instants, collecting
the pose applications each tick performs, in order. -/
def runTicks : State → List ℚ → State × List Event
  | s, [] => (s, [])
  | s, now :: rest =>
    let r := processVisemes s now
    let r2 := runTicks r.1 rest
    (r2.1, r.2.1 ++ r2.2)

end AzureViseme

namespace Azure3D

/-- One entry of `blendShapeFrames` in AzureServices3D (unnamed
part_000): frame index, the 55-value shape vector, and the timestamp
`frameIndex * 1000/60`. -/
structure Frame where
  frameIndex : Nat
  shapes : List ℚ
  timeMs : ℚ

/-- The animation/session state of the `AzureServices3D` object. -/
structure State where
  blendShapeFrames : List Frame
  currentFrameIndex : Nat
  playbackStartTime : Option ℚ
  isSpeaking : Bool
  animationFrameId : Bool
  currentSynthesisId : Nat
  bsMapper : BlendShapeMapper.State

/-- One tick of `processBlendShapeFrames` (unnamed part_000, lines
233-267): guard on `isSpeaking` and `playbackStartTime`; apply every
buffered frame whose `timeMs` has passed through
`BlendShapeMapper.applyFrame(shapes, 1.0)`; reschedule while still
speaking (the source comment: ALWAYS continue the loop while speaking —
new frames may still arrive).  The boolean is whether the tick
rescheduled. -/
def processBlendShapeFrames (s : State) (now : ℚ) : State × Bool :=
  match s.playbackStartTime with
  | none => (s, false)
  | some t0 =>
    if s.isSpeaking then
      let elapsed := now - t0
      let due := (s.blendShapeFrames.drop s.currentFrameIndex).takeWhile
        (fun fr => decide (fr.timeMs ≤ elapsed))
      let mapper := due.foldl (fun m fr => BlendShapeMapper.applyFrame m fr.shapes 1) s.bsMapper
      ({ s with currentFrameIndex := s.currentFrameIndex + due.length,
                bsMapper := mapper, animationFrameId := true }, true)
    else (s, false)

/-- `handleSpeechEnd` (unnamed part_000, lines 272-283): cancel the
pending animation frame, stop speaking, unset `t0`.  (The subsequent
neutral-return animation it launches is modelled separately.) -/
def handleSpeechEnd (s : State) : State :=
  { s with animationFrameId := false, isSpeaking := false, playbackStartTime := none }

/-- The `synthesisCanceled` handler (unnamed part_000, lines 224-227):
it invokes `handleSpeechEnd` unconditionally; the captured session id in
scope is not compared. -/
def synthesisCanceled (captured : Nat) (s : State) : State :=
  handleSpeechEnd s

/-- One display tick of `AzureServices3D.smoothResetToNeutral` (unnamed
part_000, lines 287-310): duration 200ms, `t = min(elapsed/200, 1)`,
cubic ease-out `eased = 1 - (1-t)^3`; the tick calls
`BlendShapeMapper.lerpToFrame(new Array(55).fill(0), eased)` (default
intensity 1), i.e. it interpolates each mapped slot from its CURRENT
value toward 0 by `eased`; while `t < 1` it reschedules (boolean
`true`), otherwise it performs the hard `BlendShapeMapper.reset()` and
emits the `speaking:false` completion signal (boolean `false`). -/
def smoothResetTick3D (bsm : BlendShapeMapper.State) (elapsed : ℚ) :
    BlendShapeMapper.State × Bool :=
  let t := min (elapsed / 200) 1
  let eased := 1 - (1 - t) ^ 3
  let bsm1 := BlendShapeMapper.lerpToFrame bsm (List.replicate 55 0) eased 1
  if t < 1 then (bsm1, true) else (BlendShapeMapper.reset bsm1, false)

end Azure3D

/-! Concrete states used to instantiate and to refute the claims. -/

/-- A mesh exposing `viseme_aa` at morph slot 0 and nothing else. -/
def aaMesh : VisemeMapper.Mesh :=
  { visemeIndices := [(("viseme_aa"), 0)], jawIndices := [], influences := fun _ => 0 }

/-- A mapper state with the single mesh `aaMesh` and no head/teeth pair. -/
def vmOneMesh : VisemeMapper.State :=
  { targetInfluences := fun _ => 0,
    meshes := [aaMesh],
    headIdx := none, teethIdx := none,
    corrections := { jawForwardDampen := 3/10, teethSync := true },
    currentViseme := none }

/-- A mapper state with no meshes at all. -/
def vmNoMesh : VisemeMapper.State :=
  { targetInfluences := fun _ => 0,
    meshes := [],
    headIdx := none, teethIdx := none,
    corrections := { jawForwardDampen := 3/10, teethSync := true },
    currentViseme := none }

/-- C1 counterexample state: utterance B is current (session id 2) and
its first viseme event (offset 0) is already buffered, while utterance
A's playback-started callback (installed when the session id was 1) has
not yet fired. -/
def c1start : AzureViseme.State :=
  { speechConfigSet := true, visemeEnabled := true, visemeIntensity := 1,
    isSpeaking := false, visemeQueue := [{ visemeId := 1, audioOffset := 0 }],
    currentVisemeIndex := 0, playbackStartTime := none, animationFrameId := false,
    currentSynthesisId := 2, mapper := vmOneMesh }

/-- C1 witness state: a speaking session with id 4 and a buffered event. -/
def c1wit : AzureViseme.State :=
  { speechConfigSet := true, visemeEnabled := true, visemeIntensity := 1,
    isSpeaking := true, visemeQueue := [{ visemeId := 3, audioOffset := 40 }],
    currentVisemeIndex := 0, playbackStartTime := some 0, animationFrameId := true,
    currentSynthesisId := 4, mapper := vmOneMesh }

/-- C2 counterexample state: two events that arrived out of order
(offset 100 before offset 50), playback anchored at 0. -/
def c2state : AzureViseme.State :=
  { speechConfigSet := true, visemeEnabled := true, visemeIntensity := 1,
    isSpeaking := true,
    visemeQueue := [{ visemeId := 21, audioOffset := 100 }, { visemeId := 1, audioOffset := 50 }],
    currentVisemeIndex := 0, playbackStartTime := some 0, animationFrameId := false,
    currentSynthesisId := 1, mapper := vmNoMesh }

/-- C2 witness state: two events that arrived in timestamp order. -/
def c2sorted : AzureViseme.State :=
  { speechConfigSet := true, visemeEnabled := true, visemeIntensity := 1,
    isSpeaking := true,
    visemeQueue := [{ visemeId := 1, audioOffset := 10 }, { visemeId := 21, audioOffset := 20 }],
    currentVisemeIndex := 0, playbackStartTime := some 0, animationFrameId := false,
    currentSynthesisId := 1, mapper := vmNoMesh }

/-- C3 counterexample state: `speak` invoked before the speech
configuration was initialized, with a stale nonempty buffer. -/
def c3bad : AzureViseme.State :=
  { speechConfigSet := false, visemeEnabled := true, visemeIntensity := 1,
    isSpeaking := false, visemeQueue := [{ visemeId := 5, audioOffset := 30 }],
    currentVisemeIndex := 1, playbackStartTime := none, animationFrameId := false,
    currentSynthesisId := 7, mapper := vmNoMesh }

/-- C3 witness state: a configured engine still animating a previous
utterance (speaking, pending animation frame, nonempty buffer). -/
def c3conf : AzureViseme.State :=
  { speechConfigSet := true, visemeEnabled := true, visemeIntensity := 1,
    isSpeaking := true,
    visemeQueue := [{ visemeId := 2, audioOffset := 15 }, { visemeId := 0, audioOffset := 90 }],
    currentVisemeIndex := 1, playbackStartTime := some 3, animationFrameId := true,
    currentSynthesisId := 5, mapper := vmOneMesh }

/-- C5 frame: 52 values whose first two entries are the out-of-range
weights 1.7 and -0.4 from the spec's clamping property. -/
def c5frame : List ℚ := 17/10 :: (-2/5) :: List.replicate 50 0

/-- A blendshape mesh exposing Azure channels 0 and 1 at slots 0 and 1
of a 3-slot influence array whose last slot (not named by the
vocabulary) holds 0.9. -/
def c10mesh : BlendShapeMapper.Mesh :=
  { mapping := [(0, 0), (1, 1)],
    influences := fun j => if j = 2 then 9/10 else 0, size := 3 }

/-- C5/C10 blendshape-mapper state holding the single mesh `c10mesh`. -/
def c5bs : BlendShapeMapper.State :=
  { meshes := [c10mesh] }

/-- C6 state: one mesh exposing `jawOpen` at slot 0; all current values
at 1/2. -/
def c6st : A2F.State :=
  { currentValues := fun _ => 1/2,
    meshes := [{ indices := [(("jawOpen"), 0)], influences := fun _ => 1/2 }] }

/-- C6 blendshape mesh for the 3D variant: Azure channel 0 mapped to
morph slot 0 of a 1-slot array currently holding 1/2. -/
def c6mesh3d : BlendShapeMapper.Mesh :=
  { mapping := [(0, 0)],
    influences := fun j => if j = 0 then 1/2 else 0, size := 1 }

/-- C6 blendshape-mapper state holding the single mesh `c6mesh3d`. -/
def c6bs3d : BlendShapeMapper.State :=
  { meshes := [c6mesh3d] }

/-- A mesh exposing `jawOpen` at slot 0 and `jawForward` at slot 1, both
currently at 3/5. -/
def c7cmesh : VisemeMapper.Mesh :=
  { visemeIndices := [], jawIndices := [(("jawOpen"), 0), (("jawForward"), 1)],
    influences := fun j => if j ≤ 1 then 3/5 else 0 }

/-- C7 counterexample state: `c7cmesh` as both the head mesh and (a
second copy as) the teeth mesh; teeth sync enabled, dampening 3/10. -/
def c7vm : VisemeMapper.State :=
  { targetInfluences := fun _ => 0,
    meshes := [c7cmesh, c7cmesh],
    headIdx := some 0, teethIdx := some 1,
    corrections := { jawForwardDampen := 3/10, teethSync := true },
    currentViseme := none }

/-- The head mesh of the C7 witness state. -/
def c7head : VisemeMapper.Mesh :=
  { visemeIndices := [(("viseme_aa"), 0)],
    jawIndices := [(("jawOpen"), 1), (("jawForward"), 2)],
    influences := fun j => if j = 1 then 1/4 else if j = 2 then 1/2 else 0 }

/-- The teeth mesh of the C7 witness state (different slot layout). -/
def c7teeth : VisemeMapper.Mesh :=
  { visemeIndices := [(("viseme_aa"), 5)],
    jawIndices := [(("jawOpen"), 3), (("jawForward"), 4)],
    influences := fun j => if j = 3 then 1/8 else if j = 4 then 1/3 else 0 }

/-- C7 witness state: well-formed head and teeth meshes sharing
`viseme_aa`, `jawOpen` and `jawForward`, with teeth sync enabled. -/
def c7wit : VisemeMapper.State :=
  { targetInfluences := fun v => if v = "viseme_aa" then 7/10 else 0,
    meshes := [c7head, c7teeth],
    headIdx := some 0, teethIdx := some 1,
    corrections := { jawForwardDampen := 3/10, teethSync := true },
    currentViseme := none }

/-- C8 state: speaking, playback anchored, and the read cursor already
past every buffered frame. -/
def c8st : Azure3D.State :=
  { blendShapeFrames := [{ frameIndex := 0, shapes := List.replicate 55 0, timeMs := 0 }],
    currentFrameIndex := 1, playbackStartTime := some 2, isSpeaking := true,
    animationFrameId := true, currentSynthesisId := 3,
    bsMapper := { meshes := [] } }

/-- A mesh whose dictionary recorded `viseme_aa` at slot 1 and the jaw
channel `jawOpen` at slot 0, with both slots nonzero. -/
def c9mesh : VisemeMapper.Mesh :=
  { visemeIndices := [(("viseme_aa"), 1)], jawIndices := [(("jawOpen"), 0)],
    influences := fun j => if j = 0 then 1/2 else if j = 1 then 3/10 else 0 }

/-- C9 state: the single mesh `c9mesh`, with a nonzero target influence. -/
def c9vm : VisemeMapper.State :=
  { targetInfluences := fun v => if v = "viseme_aa" then 3/10 else 0,
    meshes := [c9mesh],
    headIdx := none, teethIdx := none,
    corrections := { jawForwardDampen := 3/10, teethSync := true },
    currentViseme := some ("viseme_aa") }

/-! Helper lemmas about the write loops. -/

theorem updFn_eval (f : Nat → ℚ) (i : Nat) (v : ℚ) (j : Nat) :
    updFn f i v j = if j = i then v else f j := rfl

theorem writeSlot_eval (idxOf : String → Option Nat) (val : String → ℚ) (n : String)
    (f : Nat → ℚ) (j : Nat) :
    writeSlot idxOf val n f j = if idxOf n = some j then val n else f j := by
  unfold writeSlot
  cases h : idxOf n with
  | none => simp [h]
  | some i =>
    simp only [updFn, Option.some.injEq]
    by_cases hij : j = i
    · subst hij; simp
    · rw [if_neg hij, if_neg (fun hh => hij hh.symm)]

theorem writeChannels_eval (idxOf : String → Option Nat) (val : String → ℚ)
    (names : List String) (f : Nat → ℚ) (j : Nat) (v : ℚ)
    (hval : ∀ n ∈ names, idxOf n = some j → val n = v) :
    writeChannels idxOf val names f j =
      if names.any (fun n => decide (idxOf n = some j)) then v else f j := by
  induction names generalizing f with
  | nil => simp [writeChannels]
  | cons n rest ih =>
    have hn : idxOf n = some j → val n = v := hval n (List.mem_cons_self n rest)
    have hrest : ∀ m ∈ rest, idxOf m = some j → val m = v :=
      fun m hm => hval m (List.mem_cons_of_mem n hm)
    rw [writeChannels, ih (writeSlot idxOf val n f) hrest, writeSlot_eval]
    by_cases h : idxOf n = some j
    · simp [List.any_cons, h, hn h]
    · simp [List.any_cons, h]

/-- Reading an untouched slot: no name in the loop maps to it. -/
theorem writeChannels_untouched (idxOf : String → Option Nat) (val : String → ℚ)
    (names : List String) (f : Nat → ℚ) (j : Nat)
    (hnone : ∀ n ∈ names, idxOf n ≠ some j) :
    writeChannels idxOf val names f j = f j := by
  rw [writeChannels_eval idxOf val names f j (f j) (fun n hn hj => absurd hj (hnone n hn))]
  simp only [List.any_eq_true, if_neg]
  split
  · next h =>
    obtain ⟨n, hn, hj⟩ := h
    exact absurd (of_decide_eq_true hj) (hnone n hn)
  · rfl

theorem clamp01_nonneg (x : ℚ) : 0 ≤ clamp01 x := le_max_left 0 _

theorem clamp01_le_one (x : ℚ) : clamp01 x ≤ 1 :=
  max_le (by norm_num) (min_le_left 1 x)

theorem frameSlot_eval (values : List ℚ) (inten : ℚ) (p : Nat × Nat) (f : Nat → ℚ)
    (j : Nat) :
    BlendShapeMapper.frameSlot values inten p f j =
      if p.1 < values.length ∧ j = p.2 then clamp01 (values.getD p.1 0 * inten) else f j := by
  unfold BlendShapeMapper.frameSlot
  by_cases h1 : p.1 < values.length
  · by_cases h2 : j = p.2
    · simp [h1, h2, updFn]
    · simp [h1, h2, updFn]
  · simp [h1]

/-- Every slot after the fine-path write loop either kept its old value
or holds a clamped value in `[0, 1]`. -/
theorem applyFrameWrites_inv (values : List ℚ) (inten : ℚ) (pairs : List (Nat × Nat))
    (f : Nat → ℚ) (j : Nat) :
    BlendShapeMapper.applyFrameWrites values inten pairs f j = f j ∨
      (0 ≤ BlendShapeMapper.applyFrameWrites values inten pairs f j ∧
        BlendShapeMapper.applyFrameWrites values inten pairs f j ≤ 1) := by
  induction pairs generalizing f with
  | nil => exact Or.inl rfl
  | cons p rest ih =>
    rw [BlendShapeMapper.applyFrameWrites]
    rcases ih (BlendShapeMapper.frameSlot values inten p f) with h | h
    · rw [h, frameSlot_eval]
      by_cases hc : p.1 < values.length ∧ j = p.2
      · right; rw [if_pos hc]; exact ⟨clamp01_nonneg _, clamp01_le_one _⟩
      · left; rw [if_neg hc]
    · right; exact h

theorem lerpSlot_eval (tv : List ℚ) (inten t : ℚ) (p : Nat × Nat) (f : Nat → ℚ)
    (j : Nat) :
    BlendShapeMapper.lerpSlot tv inten t p f j =
      if p.1 < tv.length ∧ j = p.2 then
        f j + (clamp01 (tv.getD p.1 0 * inten) - f j) * t
      else f j := by
  unfold BlendShapeMapper.lerpSlot
  by_cases h1 : p.1 < tv.length
  · by_cases h2 : j = p.2
    · subst h2; simp [h1, updFn]
    · simp [h1, h2, updFn]
  · simp [h1]

/-- A slot no recorded pair writes to is untouched by the lerp loop. -/
theorem lerpWrites_untouched (tv : List ℚ) (inten t : ℚ) (pairs : List (Nat × Nat))
    (j : Nat) :
    ∀ f : Nat → ℚ, (∀ p ∈ pairs, p.2 ≠ j) →
      BlendShapeMapper.lerpWrites tv inten t pairs f j = f j := by
  induction pairs with
  | nil => intro f _; rfl
  | cons p rest ih =>
    intro f hno
    rw [BlendShapeMapper.lerpWrites]
    rw [ih _ (fun q hq => hno q (List.mem_cons_of_mem p hq)),
      lerpSlot_eval, if_neg (fun hc => hno p (List.mem_cons_self p rest) hc.2.symm)]

/-- When the recorded mesh indices are pairwise distinct, the lerp loop
writes a slot recorded for an in-range Azure index exactly once, by
interpolation from its current value. -/
theorem lerpWrites_write (tv : List ℚ) (inten t : ℚ) (pairs : List (Nat × Nat))
    (ai mi : Nat) (hai : ai < tv.length) :
    ∀ f : Nat → ℚ, (pairs.map Prod.snd).Nodup → (ai, mi) ∈ pairs →
      BlendShapeMapper.lerpWrites tv inten t pairs f mi =
        f mi + (clamp01 (tv.getD ai 0 * inten) - f mi) * t := by
  induction pairs with
  | nil => intro f _ hmem; cases hmem
  | cons p rest ih =>
    intro f hnodup hmem
    rw [List.map_cons, List.nodup_cons] at hnodup
    rw [BlendShapeMapper.lerpWrites]
    by_cases hpj : p.2 = mi
    · have hp : p = (ai, mi) := by
        rcases List.mem_cons.mp hmem with he | hr
        · exact he.symm
        · exfalso
          apply hnodup.1
          rw [hpj]
          exact List.mem_map_of_mem Prod.snd hr
      have hnorest : ∀ q ∈ rest, q.2 ≠ mi := by
        intro q hq hqe
        apply hnodup.1
        rw [hpj, ← hqe]
        exact List.mem_map_of_mem Prod.snd hq
      rw [lerpWrites_untouched tv inten t rest mi _ hnorest, lerpSlot_eval, hp,
        if_pos ⟨hai, rfl⟩]
    · have hr : (ai, mi) ∈ rest := by
        rcases List.mem_cons.mp hmem with he | hr2
        · exfalso; apply hpj; rw [← he]
        · exact hr2
      rw [ih _ hnodup.2 hr, lerpSlot_eval,
        if_neg (fun hc => hpj hc.2.symm)]

/-- What `lerpToFrame` does to every mapped mesh when the frame is long
enough: mapping and array size are preserved and the influences go
through the lerp write loop. -/
theorem lerpToFrame_mesh {st : BlendShapeMapper.State} (tv : List ℚ) (t inten : ℚ)
    (hlen : ¬ tv.length < 52) {k : Nat} {m : BlendShapeMapper.Mesh}
    (hm : st.meshes.get? k = some m) :
    ∃ m2, (BlendShapeMapper.lerpToFrame st tv t inten).meshes.get? k = some m2 ∧
      m2.mapping = m.mapping ∧ m2.size = m.size ∧
      m2.influences = BlendShapeMapper.lerpWrites tv inten t m.mapping m.influences := by
  unfold BlendShapeMapper.lerpToFrame
  rw [if_neg hlen]
  apply Exists.intro ({ m with
    influences := BlendShapeMapper.lerpWrites tv inten t m.mapping m.influences })
  refine ⟨?_, rfl, rfl, rfl⟩
  show (st.meshes.map _).get? k = _
  rw [List.get?_map, hm]
  rfl

/-- What the hard `BlendShapeMapper.reset` does to every mapped mesh:
its whole influence array (every slot below `size`) is zeroed. -/
theorem bsm_reset_mesh {st : BlendShapeMapper.State} {k : Nat}
    {m : BlendShapeMapper.Mesh} (hm : st.meshes.get? k = some m) :
    ∃ m2, (BlendShapeMapper.reset st).meshes.get? k = some m2 ∧
      m2.size = m.size ∧ ∀ j, j < m.size → m2.influences j = 0 := by
  unfold BlendShapeMapper.reset
  apply Exists.intro ({ m with
    influences := fun j => if j < m.size then 0 else m.influences j })
  refine ⟨?_, rfl, ?_⟩
  · show (st.meshes.map _).get? k = _
    rw [List.get?_map, hm]
    rfl
  · intro j hj
    exact if_pos hj

theorem idxLookup_mem {l : List (String × Nat)} {n : String} {i : Nat}
    (h : idxLookup l n = some i) : (n, i) ∈ l := by
  induction l with
  | nil => simp [idxLookup] at h
  | cons p rest ih =>
    rw [idxLookup] at h
    by_cases hp : p.1 = n
    · rw [if_pos hp] at h
      have hi : p.2 = i := Option.some.inj h
      have hpe : p = (n, i) := by
        cases p with
        | mk a b =>
          simp only at hp hi
          rw [hp, hi]
      rw [← hpe]
      exact List.mem_cons_self p rest
    · rw [if_neg hp] at h
      exact List.mem_cons_of_mem p (ih h)

/-- In a table whose recorded indices are pairwise distinct, an index
determines its channel name. -/
theorem key_of_snd_nodup {l : List (String × Nat)} (h : (l.map Prod.snd).Nodup)
    {n1 n2 : String} {i : Nat} (h1 : (n1, i) ∈ l) (h2 : (n2, i) ∈ l) : n1 = n2 := by
  have he : ((n1, i) : String × Nat) = (n2, i) :=
    List.inj_on_of_nodup_map h h1 h2 rfl
  exact congrArg Prod.fst he

/-- Indices recorded in the two halves of a well-formed table never
collide. -/
theorem snd_cross_ne {l1 l2 : List (String × Nat)}
    (h : ((l1 ++ l2).map Prod.snd).Nodup)
    {n1 n2 : String} {i1 i2 : Nat} (h1 : (n1, i1) ∈ l1) (h2 : (n2, i2) ∈ l2) :
    i1 ≠ i2 := by
  rw [List.map_append, List.nodup_append] at h
  intro he
  subst he
  have m1 : i1 ∈ l1.map Prod.snd := List.mem_map_of_mem Prod.snd h1
  have m2 : i1 ∈ l2.map Prod.snd := List.mem_map_of_mem Prod.snd h2
  exact h.2.2 m1 m2

theorem takeWhile_as_take {α : Type} (p : α → Bool) (l : List α) :
    l.takeWhile p = l.take (l.takeWhile p).length := by
  induction l with
  | nil => rfl
  | cons a t ih =>
    rw [List.takeWhile_cons]
    by_cases h : p a = true
    · rw [if_pos h, List.length_cons, List.take_succ_cons, ← ih]
    · rw [if_neg h]
      rfl

/-! Lemmas about the viseme mapper. -/

namespace VisemeMapper

theorem dampenJawForward_vi (d : ℚ) (m : Mesh) :
    (dampenJawForward d m).visemeIndices = m.visemeIndices := by
  unfold dampenJawForward
  split <;> rfl

theorem dampenJawForward_ji (d : ℚ) (m : Mesh) :
    (dampenJawForward d m).jawIndices = m.jawIndices := by
  unfold dampenJawForward
  split <;> rfl

theorem dampenJawForward_infl (d : ℚ) (m : Mesh) (j : Nat) :
    (dampenJawForward d m).influences j =
      if idxLookup m.jawIndices jawForwardName = some j then m.influences j * d
      else m.influences j := by
  unfold dampenJawForward
  cases h : idxLookup m.jawIndices jawForwardName with
  | none => simp [h]
  | some i =>
    simp only [h, updFn, Option.some.injEq]
    by_cases hij : j = i
    · subst hij; simp
    · rw [if_neg hij, if_neg (fun hh => hij hh.symm)]

theorem applyMeshStep_vi (ti : String → ℚ) (d : ℚ) (m : Mesh) :
    (applyMeshStep ti d m).visemeIndices = m.visemeIndices := by
  unfold applyMeshStep
  rw [dampenJawForward_vi]
  rfl

theorem applyMeshStep_ji (ti : String → ℚ) (d : ℚ) (m : Mesh) :
    (applyMeshStep ti d m).jawIndices = m.jawIndices := by
  unfold applyMeshStep
  rw [dampenJawForward_ji]
  rfl

/-- The viseme-table part of a well-formed mesh has pairwise-distinct
indices. -/
theorem wf_vi_nodup {m : Mesh} (hwf : m.wfIdx) :
    (m.visemeIndices.map Prod.snd).Nodup := by
  have h := hwf.2
  rw [List.map_append, List.nodup_append] at h
  exact h.1

/-- The jaw-table part of a well-formed mesh has pairwise-distinct
indices. -/
theorem wf_ji_nodup {m : Mesh} (hwf : m.wfIdx) :
    (m.jawIndices.map Prod.snd).Nodup := by
  have h := hwf.2
  rw [List.map_append, List.nodup_append] at h
  exact h.2.1

/-- After the per-mesh apply step, a slot recorded for viseme channel
`c` holds exactly the target influence of `c`. -/
theorem applyMeshStep_viseme {m : Mesh} (hwf : m.wfIdx) (ti : String → ℚ) (d : ℚ)
    {c : String} {i : Nat} (hc : c ∈ OCULUS_VISEMES)
    (hl : idxLookup m.visemeIndices c = some i) :
    (applyMeshStep ti d m).influences i = ti c := by
  unfold applyMeshStep
  rw [dampenJawForward_infl]
  have hjf : idxLookup (applyVisemesToMesh ti m).jawIndices jawForwardName ≠ some i := by
    intro hj
    exact snd_cross_ne hwf.2 (idxLookup_mem hl) (idxLookup_mem hj) rfl
  rw [if_neg hjf]
  show writeChannels (idxLookup m.visemeIndices) ti OCULUS_VISEMES m.influences i = ti c
  rw [writeChannels_eval (idxLookup m.visemeIndices) ti OCULUS_VISEMES m.influences i (ti c)
    (fun n hn hni => by
      rw [key_of_snd_nodup (wf_vi_nodup hwf) (idxLookup_mem hni) (idxLookup_mem hl)])]
  have hany : OCULUS_VISEMES.any (fun n => decide (idxLookup m.visemeIndices n = some i)) = true := by
    rw [List.any_eq_true]
    exact ⟨c, hc, by simp [hl]⟩
  rw [if_pos hany]

/-- After the per-mesh apply step, a slot recorded for jaw channel `jn`
holds its previous value, dampened when `jn` is `jawForward`. -/
theorem applyMeshStep_jaw {m : Mesh} (hwf : m.wfIdx) (ti : String → ℚ) (d : ℚ)
    {jn : String} {i : Nat} (hl : idxLookup m.jawIndices jn = some i) :
    (applyMeshStep ti d m).influences i =
      if jn = jawForwardName then m.influences i * d else m.influences i := by
  unfold applyMeshStep
  rw [dampenJawForward_infl]
  have huntouched : (applyVisemesToMesh ti m).influences i = m.influences i := by
    show writeChannels (idxLookup m.visemeIndices) ti OCULUS_VISEMES m.influences i
      = m.influences i
    apply writeChannels_untouched
    intro n hn hni
    exact snd_cross_ne hwf.2 (idxLookup_mem hni) (idxLookup_mem hl) rfl
  by_cases hjf : jn = jawForwardName
  · subst hjf
    have : idxLookup (applyVisemesToMesh ti m).jawIndices jawForwardName = some i := hl
    rw [if_pos this, if_pos rfl, huntouched]
  · have hne : idxLookup (applyVisemesToMesh ti m).jawIndices jawForwardName ≠ some i := by
      intro hj
      exact hjf (key_of_snd_nodup (wf_ji_nodup hwf) (idxLookup_mem hl) (idxLookup_mem hj))
    rw [if_neg hne, if_neg hjf, huntouched]

theorem blendStep_eval (tv : String) (bf inten : ℚ) (vocab : List String)
    (ti : String → ℚ) (u : String) :
    blendStep tv bf inten vocab ti u =
      if u ∈ vocab then ti u + ((if u = tv then inten else 0) - ti u) * bf else ti u := rfl

theorem syncTeethWithHead_ti (st : State) :
    (syncTeethWithHead st).targetInfluences = st.targetInfluences := by
  unfold syncTeethWithHead
  split
  · split
    · rfl
    · rfl
  · rfl

/-- The sync branch is skipped when the correction is off or either mesh
is missing. -/
theorem applyToMeshesSync_false {st1 : State}
    (h : (st1.corrections.teethSync && st1.headIdx.isSome && st1.teethIdx.isSome) = false) :
    applyToMeshesSync st1 = st1 := by
  unfold applyToMeshesSync
  rw [h]
  rfl

theorem applyToMeshesSync_ti (st1 : State) :
    (applyToMeshesSync st1).targetInfluences = st1.targetInfluences := by
  unfold applyToMeshesSync
  split
  · rw [syncTeethWithHead_ti]
  · rfl

theorem applyToMeshes_ti (st : State) :
    (applyToMeshes st).targetInfluences = st.targetInfluences := by
  unfold applyToMeshes
  rw [applyToMeshesSync_ti]

/-- `blendToViseme` updates the whole target-influence table by the
exponential-approach formula (and leaves names outside the vocabulary
unchanged). -/
theorem blendToViseme_ti {p : Nat} {name : String} (hp : AZURE_TO_OCULUS p = some name)
    (st : State) (bf inten : ℚ) (c : String) :
    (blendToViseme st p bf inten).targetInfluences c =
      if c ∈ OCULUS_VISEMES then
        st.targetInfluences c + ((if c = name then inten else 0) - st.targetInfluences c) * bf
      else st.targetInfluences c := by
  unfold blendToViseme
  rw [hp]
  show (applyToMeshes _).targetInfluences c = _
  rw [applyToMeshes_ti]
  rfl

/-- Value stored on a mapped mesh by `blendToViseme` when the teeth-sync
branch is inactive. -/
theorem blendToViseme_mesh_noSync {p : Nat} {name : String}
    (hp : AZURE_TO_OCULUS p = some name) {st : State}
    (hns : (st.corrections.teethSync && st.headIdx.isSome && st.teethIdx.isSome) = false)
    (bf inten : ℚ) {k : Nat} {m : Mesh} (hm : st.meshes.get? k = some m) (hwf : m.wfIdx)
    {c : String} {i : Nat} (hc : c ∈ OCULUS_VISEMES)
    (hl : idxLookup m.visemeIndices c = some i) :
    ∃ m2, (blendToViseme st p bf inten).meshes.get? k = some m2 ∧
      m2.influences i =
        st.targetInfluences c + ((if c = name then inten else 0) - st.targetInfluences c) * bf ∧
      m2.visemeIndices = m.visemeIndices ∧ m2.jawIndices = m.jawIndices := by
  unfold blendToViseme
  rw [hp]
  dsimp only
  unfold applyToMeshes
  dsimp only
  rw [applyToMeshesSync_false (by exact hns)]
  dsimp only
  refine ⟨applyMeshStep (blendStep name bf inten OCULUS_VISEMES st.targetInfluences)
    st.corrections.jawForwardDampen m, ?_, ?_, applyMeshStep_vi _ _ m, applyMeshStep_ji _ _ m⟩
  · rw [List.get?_map, hm]
    rfl
  · rw [applyMeshStep_viseme hwf _ _ hc hl, blendStep_eval, if_pos hc]

/-- What `reset` does to every mapped mesh: viseme slots are zeroed,
all other slots (jaw slots included) keep their values. -/
theorem reset_mesh {st : State} {k : Nat} {m : Mesh} (hm : st.meshes.get? k = some m) :
    ∃ m2, (reset st).meshes.get? k = some m2 ∧
      m2.visemeIndices = m.visemeIndices ∧ m2.jawIndices = m.jawIndices ∧
      (∀ c ∈ OCULUS_VISEMES, ∀ i, idxLookup m.visemeIndices c = some i → m2.influences i = 0) ∧
      (∀ j, (∀ c ∈ OCULUS_VISEMES, idxLookup m.visemeIndices c ≠ some j) →
        m2.influences j = m.influences j) := by
  apply Exists.intro ({ m with influences := writeChannels (idxLookup m.visemeIndices) (fun _ => 0) OCULUS_VISEMES m.influences })
  refine ⟨?_, rfl, rfl, ?_, ?_⟩
  · show (st.meshes.map _).get? k = _
    rw [List.get?_map, hm]
    rfl
  · intro c hc i hl
    show writeChannels (idxLookup m.visemeIndices) (fun _ => 0) OCULUS_VISEMES m.influences i = 0
    rw [writeChannels_eval (idxLookup m.visemeIndices) (fun _ => 0) OCULUS_VISEMES m.influences i 0
      (fun n hn hni => rfl)]
    have hany : OCULUS_VISEMES.any (fun n => decide (idxLookup m.visemeIndices n = some i)) = true := by
      rw [List.any_eq_true]
      exact ⟨c, hc, by simp [hl]⟩
    rw [if_pos hany]
  · intro j hnone
    show writeChannels (idxLookup m.visemeIndices) (fun _ => 0) OCULUS_VISEMES m.influences j
      = m.influences j
    exact writeChannels_untouched _ _ _ _ _ hnone

theorem syncVisIdx_some_elim {head teeth : Mesh} {n : String} {i : Nat}
    (h : syncVisIdx head teeth n = some i) : idxLookup teeth.visemeIndices n = some i := by
  unfold syncVisIdx at h
  cases hh : idxLookup head.visemeIndices n with
  | none => rw [hh] at h; exact absurd h (by simp)
  | some hi => rw [hh] at h; exact h

theorem syncVisIdx_of_both {head teeth : Mesh} {n : String} {hi : Nat}
    (hh : idxLookup head.visemeIndices n = some hi) :
    syncVisIdx head teeth n = idxLookup teeth.visemeIndices n := by
  unfold syncVisIdx
  rw [hh]

theorem syncVisIdx_of_head_none {head teeth : Mesh} {n : String}
    (hh : idxLookup head.visemeIndices n = none) : syncVisIdx head teeth n = none := by
  unfold syncVisIdx
  rw [hh]

theorem syncVisVal_of_some {head : Mesh} {n : String} {hi : Nat}
    (h : idxLookup head.visemeIndices n = some hi) :
    syncVisVal head n = head.influences hi := by
  unfold syncVisVal
  rw [h]

theorem syncJawIdx_some_elim {head teeth : Mesh} {n : String} {i : Nat}
    (h : syncJawIdx head teeth n = some i) : idxLookup teeth.jawIndices n = some i := by
  unfold syncJawIdx at h
  cases hh : idxLookup head.jawIndices n with
  | none => rw [hh] at h; exact absurd h (by simp)
  | some hi => rw [hh] at h; exact h

theorem syncJawIdx_of_both {head teeth : Mesh} {n : String} {hi : Nat}
    (hh : idxLookup head.jawIndices n = some hi) :
    syncJawIdx head teeth n = idxLookup teeth.jawIndices n := by
  unfold syncJawIdx
  rw [hh]

theorem syncJawVal_of_some {head : Mesh} {n : String} {hi : Nat} (d : ℚ)
    (h : idxLookup head.jawIndices n = some hi) :
    syncJawVal head d n =
      if n = jawForwardName then head.influences hi * d else head.influences hi := by
  unfold syncJawVal
  rw [h]

/-- Reading the teeth influence table produced by `_syncTeethWithHead`
(after the per-mesh apply step ran on head and teeth) at a slot recorded
for viseme channel `c` on the teeth: it holds the target influence of
`c`. -/
theorem syncWrites_viseme {headM teethM : Mesh} (hwfh : headM.wfIdx) (hwft : teethM.wfIdx)
    (ti : String → ℚ) (d : ℚ) {c : String} {i : Nat} (hc : c ∈ OCULUS_VISEMES)
    (hlt : idxLookup teethM.visemeIndices c = some i) :
    writeChannels (syncVisIdx (applyMeshStep ti d headM) (applyMeshStep ti d teethM))
      (syncVisVal (applyMeshStep ti d headM)) OCULUS_VISEMES
      (writeChannels (syncJawIdx (applyMeshStep ti d headM) (applyMeshStep ti d teethM))
        (syncJawVal (applyMeshStep ti d headM) d) JAW_TARGETS
        (applyMeshStep ti d teethM).influences) i = ti c := by
  have hvih : (applyMeshStep ti d headM).visemeIndices = headM.visemeIndices :=
    applyMeshStep_vi ti d headM
  have hvit : (applyMeshStep ti d teethM).visemeIndices = teethM.visemeIndices :=
    applyMeshStep_vi ti d teethM
  have hjit : (applyMeshStep ti d teethM).jawIndices = teethM.jawIndices :=
    applyMeshStep_ji ti d teethM
  cases hlh : idxLookup headM.visemeIndices c with
  | some hi =>
    rw [writeChannels_eval _ _ _ _ i (ti c) ?hval]
    case hval =>
      intro n hn hsi
      have htn : idxLookup teethM.visemeIndices n = some i := by
        have := syncVisIdx_some_elim hsi
        rwa [hvit] at this
      have hnc : n = c := key_of_snd_nodup (wf_vi_nodup hwft) (idxLookup_mem htn) (idxLookup_mem hlt)
      subst hnc
      rw [syncVisVal_of_some (show idxLookup (applyMeshStep ti d headM).visemeIndices n = some hi
        from by rw [hvih]; exact hlh)]
      exact applyMeshStep_viseme hwfh ti d hc hlh
    have hany : OCULUS_VISEMES.any
        (fun n => decide (syncVisIdx (applyMeshStep ti d headM) (applyMeshStep ti d teethM) n = some i)) = true := by
      rw [List.any_eq_true]
      refine ⟨c, hc, ?_⟩
      have : syncVisIdx (applyMeshStep ti d headM) (applyMeshStep ti d teethM) c = some i := by
        rw [syncVisIdx_of_both (show idxLookup (applyMeshStep ti d headM).visemeIndices c = some hi
          from by rw [hvih]; exact hlh), hvit]
        exact hlt
      simp [this]
    rw [if_pos hany]
  | none =>
    have huntouched2 : ∀ n ∈ OCULUS_VISEMES,
        syncVisIdx (applyMeshStep ti d headM) (applyMeshStep ti d teethM) n ≠ some i := by
      intro n hn hsi
      have htn : idxLookup teethM.visemeIndices n = some i := by
        have := syncVisIdx_some_elim hsi
        rwa [hvit] at this
      have hnc : n = c := key_of_snd_nodup (wf_vi_nodup hwft) (idxLookup_mem htn) (idxLookup_mem hlt)
      subst hnc
      rw [syncVisIdx_of_head_none (by rw [hvih]; exact hlh)] at hsi
      exact absurd hsi (by simp)
    rw [writeChannels_untouched _ _ _ _ _ huntouched2]
    have huntouched1 : ∀ n ∈ JAW_TARGETS,
        syncJawIdx (applyMeshStep ti d headM) (applyMeshStep ti d teethM) n ≠ some i := by
      intro n hn hsi
      have htn : idxLookup teethM.jawIndices n = some i := by
        have := syncJawIdx_some_elim hsi
        rwa [hjit] at this
      exact snd_cross_ne hwft.2 (idxLookup_mem hlt) (idxLookup_mem htn) rfl
    rw [writeChannels_untouched _ _ _ _ _ huntouched1]
    exact applyMeshStep_viseme hwft ti d hc hlt

/-- Reading the teeth influence table produced by `_syncTeethWithHead`
at a slot recorded for jaw channel `jn` on the teeth, when the head also
exposes `jn`: the head's pre-apply value, dampened twice for
`jawForward`, copied unchanged otherwise. -/
theorem syncWrites_jaw {headM teethM : Mesh} (hwfh : headM.wfIdx) (hwft : teethM.wfIdx)
    (ti : String → ℚ) (d : ℚ) {jn : String} {hi tix : Nat} (hjn : jn ∈ JAW_TARGETS)
    (hlh : idxLookup headM.jawIndices jn = some hi)
    (hlt : idxLookup teethM.jawIndices jn = some tix) :
    writeChannels (syncVisIdx (applyMeshStep ti d headM) (applyMeshStep ti d teethM))
      (syncVisVal (applyMeshStep ti d headM)) OCULUS_VISEMES
      (writeChannels (syncJawIdx (applyMeshStep ti d headM) (applyMeshStep ti d teethM))
        (syncJawVal (applyMeshStep ti d headM) d) JAW_TARGETS
        (applyMeshStep ti d teethM).influences) tix =
      if jn = jawForwardName then headM.influences hi * d * d else headM.influences hi := by
  have hjih : (applyMeshStep ti d headM).jawIndices = headM.jawIndices :=
    applyMeshStep_ji ti d headM
  have hvit : (applyMeshStep ti d teethM).visemeIndices = teethM.visemeIndices :=
    applyMeshStep_vi ti d teethM
  have hjit : (applyMeshStep ti d teethM).jawIndices = teethM.jawIndices :=
    applyMeshStep_ji ti d teethM
  have huntouched2 : ∀ n ∈ OCULUS_VISEMES,
      syncVisIdx (applyMeshStep ti d headM) (applyMeshStep ti d teethM) n ≠ some tix := by
    intro n hn hsi
    have htn : idxLookup teethM.visemeIndices n = some tix := by
      have := syncVisIdx_some_elim hsi
      rwa [hvit] at this
    exact snd_cross_ne hwft.2 (idxLookup_mem htn) (idxLookup_mem hlt) rfl
  rw [writeChannels_untouched _ _ _ _ _ huntouched2]
  rw [writeChannels_eval _ _ _ _ tix
    (if jn = jawForwardName then headM.influences hi * d * d else headM.influences hi) ?hval]
  case hval =>
    intro n hn hsi
    have htn : idxLookup teethM.jawIndices n = some tix := by
      have := syncJawIdx_some_elim hsi
      rwa [hjit] at this
    have hnj : n = jn := key_of_snd_nodup (wf_ji_nodup hwft) (idxLookup_mem htn) (idxLookup_mem hlt)
    subst hnj
    rw [syncJawVal_of_some d (show idxLookup (applyMeshStep ti d headM).jawIndices n = some hi
      from by rw [hjih]; exact hlh)]
    rw [applyMeshStep_jaw hwfh ti d hlh]
    by_cases hf : n = jawForwardName
    · rw [if_pos hf, if_pos hf, if_pos hf]
    · rw [if_neg hf, if_neg hf, if_neg hf]
  have hany : JAW_TARGETS.any
      (fun n => decide (syncJawIdx (applyMeshStep ti d headM) (applyMeshStep ti d teethM) n = some tix)) = true := by
    rw [List.any_eq_true]
    refine ⟨jn, hjn, ?_⟩
    have : syncJawIdx (applyMeshStep ti d headM) (applyMeshStep ti d teethM) jn = some tix := by
      rw [syncJawIdx_of_both (show idxLookup (applyMeshStep ti d headM).jawIndices jn = some hi
        from by rw [hjih]; exact hlh), hjit]
      exact hlt
    simp [this]
  rw [if_pos hany]

/-- Well-formedness transfers along equal index tables. -/
theorem wfIdx_of_eq {m1 m2 : Mesh} (hv : m1.visemeIndices = m2.visemeIndices)
    (hj : m1.jawIndices = m2.jawIndices) (h : m2.wfIdx) : m1.wfIdx := by
  unfold Mesh.wfIdx at h ⊢
  rw [hv, hj]
  exact h

/-- The sync branch runs when the correction is on and both meshes are
present. -/
theorem applyToMeshesSync_true {st1 : State}
    (h : (st1.corrections.teethSync && st1.headIdx.isSome && st1.teethIdx.isSome) = true) :
    applyToMeshesSync st1 = syncTeethWithHead st1 := by
  unfold applyToMeshesSync
  rw [h]
  rw [if_pos rfl]

/-- The shape of `_syncTeethWithHead` when head and teeth meshes are
found. -/
theorem syncTeethWithHead_eq {st1 : State} {h t : Nat} {head teeth : Mesh}
    (hh : st1.headIdx = some h) (ht : st1.teethIdx = some t)
    (hhm : st1.meshes.get? h = some head) (htm : st1.meshes.get? t = some teeth) :
    syncTeethWithHead st1 = { st1 with meshes := st1.meshes.set t { teeth with
      influences := writeChannels (syncVisIdx head teeth) (syncVisVal head) OCULUS_VISEMES
        (writeChannels (syncJawIdx head teeth) (syncJawVal head st1.corrections.jawForwardDampen)
          JAW_TARGETS teeth.influences) } } := by
  unfold syncTeethWithHead
  rw [hh, ht]
  dsimp only
  rw [hhm, htm]

theorem syncTeethWithHead_headIdx (st : State) :
    (syncTeethWithHead st).headIdx = st.headIdx := by
  unfold syncTeethWithHead
  split
  · split
    · rfl
    · rfl
  · rfl

theorem syncTeethWithHead_teethIdx (st : State) :
    (syncTeethWithHead st).teethIdx = st.teethIdx := by
  unfold syncTeethWithHead
  split
  · split
    · rfl
    · rfl
  · rfl

theorem syncTeethWithHead_corrections (st : State) :
    (syncTeethWithHead st).corrections = st.corrections := by
  unfold syncTeethWithHead
  split
  · split
    · rfl
    · rfl
  · rfl

theorem applyToMeshesSync_headIdx (st : State) :
    (applyToMeshesSync st).headIdx = st.headIdx := by
  unfold applyToMeshesSync
  split
  · rw [syncTeethWithHead_headIdx]
  · rfl

theorem applyToMeshesSync_teethIdx (st : State) :
    (applyToMeshesSync st).teethIdx = st.teethIdx := by
  unfold applyToMeshesSync
  split
  · rw [syncTeethWithHead_teethIdx]
  · rfl

theorem applyToMeshesSync_corrections (st : State) :
    (applyToMeshesSync st).corrections = st.corrections := by
  unfold applyToMeshesSync
  split
  · rw [syncTeethWithHead_corrections]
  · rfl

/-- `blendToViseme` never changes the head/teeth bookkeeping or the
correction constants. -/
theorem blendToViseme_fields {p : Nat} {name : String}
    (hp : AZURE_TO_OCULUS p = some name) (st : State) (bf inten : ℚ) :
    (blendToViseme st p bf inten).headIdx = st.headIdx ∧
    (blendToViseme st p bf inten).teethIdx = st.teethIdx ∧
    (blendToViseme st p bf inten).corrections = st.corrections := by
  unfold blendToViseme
  rw [hp]
  dsimp only
  unfold applyToMeshes
  exact ⟨applyToMeshesSync_headIdx _, applyToMeshesSync_teethIdx _,
    applyToMeshesSync_corrections _⟩

end VisemeMapper

/-! Lemmas about the viseme scheduler. -/

namespace AzureViseme

/-- One scheduler tick leaves the queue unchanged, applies a contiguous
block of the queue starting at the read cursor, and advances the cursor
by exactly the number of applied events. -/
theorem processVisemes_spec (s : State) (now : ℚ) :
    (processVisemes s now).1.visemeQueue = s.visemeQueue ∧
    ∃ k, (processVisemes s now).2.1 = (s.visemeQueue.drop s.currentVisemeIndex).take k ∧
      (processVisemes s now).1.currentVisemeIndex = s.currentVisemeIndex + k := by
  unfold processVisemes
  cases hpb : s.playbackStartTime with
  | none => exact ⟨rfl, 0, rfl, rfl⟩
  | some t0 =>
    dsimp only
    by_cases hsp : (s.isSpeaking && s.visemeEnabled) = true
    · rw [if_pos hsp]
      dsimp only
      exact ⟨rfl, ((s.visemeQueue.drop s.currentVisemeIndex).takeWhile
        (fun ev => decide (ev.audioOffset ≤ now - t0))).length,
        takeWhile_as_take _ _, rfl⟩
    · rw [if_neg hsp]
      exact ⟨rfl, 0, rfl, rfl⟩

/-- Over any run of scheduler ticks, the concatenated sequence of
applied events is a sublist (in order) of the event queue. -/
theorem runTicks_sublist (nows : List ℚ) (s : State) :
    (runTicks s nows).2.Sublist (s.visemeQueue.drop s.currentVisemeIndex) := by
  induction nows generalizing s with
  | nil => exact List.nil_sublist _
  | cons now rest ih =>
    rw [runTicks]
    obtain ⟨hq, k, happ, hidx⟩ := processVisemes_spec s now
    dsimp only
    have h2 : (runTicks (processVisemes s now).1 rest).2.Sublist
        ((s.visemeQueue.drop s.currentVisemeIndex).drop k) := by
      have hrec := ih (processVisemes s now).1
      rw [hq, hidx] at hrec
      have hdd : List.drop k (List.drop s.currentVisemeIndex s.visemeQueue)
          = List.drop (s.currentVisemeIndex + k) s.visemeQueue := by
        rw [List.drop_drop, Nat.add_comm]
      rw [hdd]
      exact hrec
    rw [happ]
    have hall := List.Sublist.append
      (List.Sublist.refl ((s.visemeQueue.drop s.currentVisemeIndex).take k)) h2
    rwa [List.take_append_drop] at hall

end AzureViseme

/-! Lemmas about the neutral-return animation. -/

namespace A2F

theorem smoothResetTick_cur (sv : String → ℚ) (st : State) (e : ℚ) (n : String)
    (hn : n ∈ arkitShapes) :
    (smoothResetTick sv st e).1.currentValues n = sv n * (1 - min (e / 300) 1) ^ 3 := by
  unfold smoothResetTick
  dsimp only
  unfold writeNamed
  rw [if_pos hn]
  ring

theorem smoothResetTick_done (sv : String → ℚ) (st : State) (e : ℚ)
    (he : (300 : ℚ) ≤ e) :
    (∀ n ∈ arkitShapes, (smoothResetTick sv st e).1.currentValues n = 0) ∧
    (∀ m ∈ (smoothResetTick sv st e).1.meshes, ∀ n ∈ arkitShapes, ∀ i,
      idxLookup m.indices n = some i → m.influences i = 0) ∧
    (smoothResetTick sv st e).2 = false := by
  have hmin : min (e / 300) 1 = 1 :=
    min_eq_right ((one_le_div (by norm_num : (0:ℚ) < 300)).mpr he)
  have hcur : ∀ n ∈ arkitShapes, (smoothResetTick sv st e).1.currentValues n = 0 := by
    intro n hn
    rw [smoothResetTick_cur sv st e n hn, hmin]
    ring
  have hcur0 : ∀ n2 ∈ arkitShapes,
      writeNamed (fun u => sv u * (1 - (1 - (1 - min (e / 300) 1) ^ 3))) arkitShapes
        st.currentValues n2 = 0 := by
    intro n2 hn2
    unfold writeNamed
    rw [if_pos hn2, hmin]
    ring
  refine ⟨hcur, ?_, ?_⟩
  · intro m hm n hn i hl
    have hms : (smoothResetTick sv st e).1.meshes =
        applyValuesToMeshes (writeNamed (fun u => sv u * (1 - (1 - (1 - min (e / 300) 1) ^ 3)))
          arkitShapes st.currentValues) st.meshes := rfl
    rw [hms] at hm
    unfold applyValuesToMeshes at hm
    obtain ⟨m0, hm0, heq⟩ := List.mem_map.mp hm
    subst heq
    dsimp only at hl ⊢
    rw [writeChannels_eval _ _ _ _ i 0 (fun n2 hn2 _ => hcur0 n2 hn2)]
    have hany : arkitShapes.any
        (fun n2 => decide (idxLookup m0.indices n2 = some i)) = true := by
      rw [List.any_eq_true]
      exact ⟨n, hn, by simp [hl]⟩
    rw [if_pos hany]
  · unfold smoothResetTick
    dsimp only
    rw [hmin]
    simp

theorem smoothResetTick_continues (sv : String → ℚ) (st : State) (e : ℚ)
    (he : e < 300) : (smoothResetTick sv st e).2 = true := by
  unfold smoothResetTick
  dsimp only
  have h1 : min (e / 300) 1 < 1 :=
    lt_of_le_of_lt (min_le_left _ _) ((div_lt_one (by norm_num : (0:ℚ) < 300)).mpr he)
  simp [h1]

end A2F

/-! Lemmas about the 3D blendshape scheduler. -/

namespace Azure3D

theorem processBlendShapeFrames_reschedules {s : State} {t0 : ℚ}
    (hsp : s.isSpeaking = true) (hpb : s.playbackStartTime = some t0) (now : ℚ) :
    (processBlendShapeFrames s now).2 = true := by
  unfold processBlendShapeFrames
  rw [hpb]
  dsimp only
  rw [if_pos hsp]

theorem processBlendShapeFrames_stopped (s : State) (now : ℚ) :
    (processBlendShapeFrames (handleSpeechEnd s) now).2 = false := by
  unfold handleSpeechEnd processBlendShapeFrames
  rfl

/-- A tick of the 3D neutral-return animation before the deadline: lerp
toward the zero frame and reschedule. -/
theorem smoothResetTick3D_lt {e : ℚ} (bsm : BlendShapeMapper.State)
    (ht : min (e / 200) 1 < 1) :
    smoothResetTick3D bsm e =
      (BlendShapeMapper.lerpToFrame bsm (List.replicate 55 0)
        (1 - (1 - min (e / 200) 1) ^ 3) 1, true) := by
  unfold smoothResetTick3D
  dsimp only
  rw [if_pos ht]

/-- The final tick of the 3D neutral-return animation: lerp toward the
zero frame, then hard reset; no reschedule (the completion signal). -/
theorem smoothResetTick3D_ge {e : ℚ} (bsm : BlendShapeMapper.State)
    (ht : ¬ min (e / 200) 1 < 1) :
    smoothResetTick3D bsm e =
      (BlendShapeMapper.reset (BlendShapeMapper.lerpToFrame bsm (List.replicate 55 0)
        (1 - (1 - min (e / 200) 1) ^ 3) 1), false) := by
  unfold smoothResetTick3D
  dsimp only
  rw [if_neg ht]

end Azure3D

/-! The claims. -/

/-- C1, amended (the claim as stated is refuted by `c1_counterexample`):
only the pose/timing event handler compares its captured Session Token
against the current one — a stale pose event leaves the whole engine
state, in particular the buffered event queue and the mesh
channel-value arrays, exactly unchanged.  The playback-started,
playback-ended and canceled handlers perform no such comparison (see
the counterexample for a stale playback-started callback mutating the
channel values). -/
theorem c1_stale_pose_discarded (captured : Nat) (s : AzureViseme.State)
    (visemeId : Nat) (off : ℚ) (h : captured ≠ s.currentSynthesisId) :
    AzureViseme.visemeReceived captured s visemeId off = s := by
  unfold AzureViseme.visemeReceived
  rw [if_pos h]

/-- Witness for C1: a pose event captured under session 1 arriving while
session 4 is current is discarded without any state change. -/
theorem c1_witness :
    (1 : Nat) ≠ c1wit.currentSynthesisId ∧
    AzureViseme.visemeReceived 1 c1wit 7 1234 = c1wit :=
  ⟨by decide, c1_stale_pose_discarded 1 c1wit 7 1234 (by decide)⟩

/-- Counterexample for C1 as stated: utterance A's playback-started
callback (installed when the token was 1) runs after utterance B
(token 2) has buffered its first event; the callback performs no token
comparison and synchronously applies B's due event, changing the mesh
channel-value array from 0 to 2/5 — a stale provider callback with an
observable effect on the ChannelValueArray. -/
theorem c1_counterexample :
    (1 : Nat) ≠ c1start.currentSynthesisId ∧
    (c1start.mapper.meshes.getD 0 default).influences 0 = 0 ∧
    ((AzureViseme.onAudioStart 1 c1start 5).1.mapper.meshes.getD 0 default).influences 0
      = 2/5 ∧
    ((2:ℚ)/5 ≠ 0) := by
  refine ⟨by decide, rfl, ?_, by norm_num⟩
  have h0 : (decide ((0:ℚ) ≤ 5 - 5)) = true := by
    simp only [decide_eq_true_eq]
    norm_num
  have hme : (AzureViseme.onAudioStart 1 c1start 5).1.mapper
      = VisemeMapper.blendToViseme vmOneMesh 1 (2/5) 1 := by
    simp [AzureViseme.onAudioStart, AzureViseme.processVisemes, c1start, List.takeWhile, h0]
  rw [hme]
  have hp : VisemeMapper.AZURE_TO_OCULUS 1 = some ("viseme_aa") := by decide
  have hns : (vmOneMesh.corrections.teethSync && vmOneMesh.headIdx.isSome &&
      vmOneMesh.teethIdx.isSome) = false := by decide
  obtain ⟨m1, hm1, hv1, hvi1, hji1⟩ :=
    VisemeMapper.blendToViseme_mesh_noSync hp hns (2/5) 1
      (rfl : vmOneMesh.meshes.get? 0 = some aaMesh) (by decide)
      (by decide : ("viseme_aa") ∈ VisemeMapper.OCULUS_VISEMES)
      (by decide : idxLookup aaMesh.visemeIndices ("viseme_aa") = some 0)
  have hgd : (VisemeMapper.blendToViseme vmOneMesh 1 (2/5) 1).meshes.getD 0 default = m1 := by
    rw [List.getD_eq_getElem?_getD, ← List.get?_eq_getElem?, hm1]
    rfl
  rw [hgd, hv1]
  norm_num [vmOneMesh]

/-- C3, amended (the claim as stated is refuted by `c3_counterexample`):
on an engine whose speech configuration is initialized, every `speak`
invocation — including one issued while a previous utterance is still
animating — completes the preemption sequence without throwing: it
increments the Session Token exactly once, clears the buffered events
and the read cursor, cancels any pending animation-frame tick and
unsets the playback start time, and only then issues the new synthesis
request, whose handlers capture the incremented token.  An invocation
with speech unconfigured returns early and performs none of these. -/
theorem c3_speak_preemption (s : AzureViseme.State) (hcfg : s.speechConfigSet = true) :
    (AzureViseme.speak s).state.currentSynthesisId = s.currentSynthesisId + 1 ∧
    (AzureViseme.speak s).state.visemeQueue = [] ∧
    (AzureViseme.speak s).state.currentVisemeIndex = 0 ∧
    (AzureViseme.speak s).state.playbackStartTime = none ∧
    (AzureViseme.speak s).state.animationFrameId = false ∧
    (AzureViseme.speak s).issued = true ∧
    (AzureViseme.speak s).capturedToken = some (s.currentSynthesisId + 1) := by
  unfold AzureViseme.speak
  rw [if_pos hcfg]
  exact ⟨rfl, rfl, rfl, rfl, rfl, rfl, rfl⟩

/-- Counterexample for C3 as stated: `speak` invoked on an engine whose
speech configuration is not initialized returns early — the token is
not incremented, the stale buffer is not cleared, and no request is
issued. -/
theorem c3_counterexample :
    (AzureViseme.speak c3bad).state.currentSynthesisId = 7 ∧
    (AzureViseme.speak c3bad).state.currentSynthesisId ≠ c3bad.currentSynthesisId + 1 ∧
    (AzureViseme.speak c3bad).state.visemeQueue.length = 1 ∧
    (AzureViseme.speak c3bad).issued = false :=
  ⟨rfl, by decide, rfl, rfl⟩

/-- Witness for C3: a configured engine still animating a previous
utterance. -/
theorem c3_witness :
    c3conf.speechConfigSet = true ∧
    ((AzureViseme.speak c3conf).state.currentSynthesisId = c3conf.currentSynthesisId + 1 ∧
     (AzureViseme.speak c3conf).state.visemeQueue = [] ∧
     (AzureViseme.speak c3conf).state.currentVisemeIndex = 0 ∧
     (AzureViseme.speak c3conf).state.playbackStartTime = none ∧
     (AzureViseme.speak c3conf).state.animationFrameId = false ∧
     (AzureViseme.speak c3conf).issued = true ∧
     (AzureViseme.speak c3conf).capturedToken = some (c3conf.currentSynthesisId + 1)) :=
  ⟨by decide, c3_speak_preemption c3conf (by decide)⟩

/-- C4 (confirmed): in coarse mode, on a due event whose pose id `p` is
mapped to viseme `name`, the blend update sets, for every channel `c`
of the viseme vocabulary,
`targetWeights[c] += (desired - targetWeights[c]) * blendFactor` with
`desired = intensity` when `c` is the mapped channel and `0` otherwise —
an exponential approach toward the target, not a hard set. -/
theorem c4_blend_formula (st : VisemeMapper.State) (p : Nat) (name : String)
    (hp : VisemeMapper.AZURE_TO_OCULUS p = some name) (bf inten : ℚ)
    (c : String) (hc : c ∈ VisemeMapper.OCULUS_VISEMES) :
    (VisemeMapper.blendToViseme st p bf inten).targetInfluences c =
      st.targetInfluences c + ((if c = name then inten else 0) - st.targetInfluences c) * bf := by
  rw [VisemeMapper.blendToViseme_ti hp, if_pos hc]

/-- Witness for C4: Azure viseme 21 maps to `viseme_PP`; one blend step
moves that channel by the exponential-approach formula. -/
theorem c4_witness :
    VisemeMapper.AZURE_TO_OCULUS 21 = some ("viseme_PP") ∧
    ("viseme_PP") ∈ VisemeMapper.OCULUS_VISEMES ∧
    (VisemeMapper.blendToViseme vmOneMesh 21 (2/5) 1).targetInfluences ("viseme_PP") =
      vmOneMesh.targetInfluences ("viseme_PP") +
        ((if ("viseme_PP" : String) = "viseme_PP" then (1:ℚ) else 0) -
          vmOneMesh.targetInfluences ("viseme_PP")) * (2/5) :=
  ⟨by decide, by decide,
    c4_blend_formula vmOneMesh 21 ("viseme_PP") (by decide) (2/5) 1 ("viseme_PP") (by decide)⟩

/-- C6 counterexample: the claim states that EACH tick of the
neutral-return animation writes `start[c] * (1 - eased)`, and the claim
covers both implementations; for `AzureServices3D.smoothResetToNeutral`
(unnamed part_000, lines 287-310, duration 200ms) this is false from the
second tick on, because that tick lerps each mapped slot from its
CURRENT value (`value ← value * (1 - eased)`, compounding across
ticks) rather than from the start value.  Concretely, on a mesh whose
mapped slot starts at 1/2, ticks at elapsed 100ms (t = 1/2,
1 - eased = 1/8) and 150ms (t = 3/4, 1 - eased = 1/64) leave
1/2 · 1/8 · 1/64 = 1/1024, while the claimed `start · (1 - eased)` at
the second tick is 1/2 · 1/64 = 1/128 ≠ 1/1024. -/
theorem c6_counterexample :
    ((Azure3D.smoothResetTick3D (Azure3D.smoothResetTick3D c6bs3d 100).1 150).1.meshes.getD 0
        default).influences 0 = 1/1024 ∧
    c6mesh3d.influences 0 * (1 - (1 - (1 - min ((150:ℚ) / 200) 1) ^ 3)) = 1/128 ∧
    ((1:ℚ)/1024 ≠ 1/128) := by
  have hm1 : min ((100:ℚ) / 200) 1 = 1/2 := by
    rw [min_def]
    norm_num
  have hm2 : min ((150:ℚ) / 200) 1 = 3/4 := by
    rw [min_def]
    norm_num
  have ht1 : min ((100:ℚ) / 200) 1 < 1 := by rw [hm1]; norm_num
  have ht2 : min ((150:ℚ) / 200) 1 < 1 := by rw [hm2]; norm_num
  have hlen : ¬ (List.replicate 55 (0:ℚ)).length < 52 := by simp
  have e1 : Azure3D.smoothResetTick3D c6bs3d 100 =
      (BlendShapeMapper.lerpToFrame c6bs3d (List.replicate 55 0)
        (1 - (1 - min ((100:ℚ) / 200) 1) ^ 3) 1, true) :=
    Azure3D.smoothResetTick3D_lt c6bs3d ht1
  have hm0 : c6bs3d.meshes.get? 0 = some c6mesh3d := rfl
  obtain ⟨m1, hg1, hmap1, hsz1, hinf1⟩ :=
    lerpToFrame_mesh (List.replicate 55 0) (1 - (1 - min ((100:ℚ) / 200) 1) ^ 3) 1 hlen hm0
  have hv1 : m1.influences 0 = c6mesh3d.influences 0 +
      (clamp01 ((List.replicate 55 (0:ℚ)).getD 0 0 * 1) - c6mesh3d.influences 0) *
        (1 - (1 - min ((100:ℚ) / 200) 1) ^ 3) := by
    rw [hinf1]
    exact lerpWrites_write (List.replicate 55 0) 1 _ c6mesh3d.mapping 0 0 (by simp)
      c6mesh3d.influences (by decide) (by decide)
  have hg1b : (Azure3D.smoothResetTick3D c6bs3d 100).1.meshes.get? 0 = some m1 := by
    rw [e1]
    exact hg1
  have e2 : Azure3D.smoothResetTick3D (Azure3D.smoothResetTick3D c6bs3d 100).1 150 =
      (BlendShapeMapper.lerpToFrame (Azure3D.smoothResetTick3D c6bs3d 100).1
        (List.replicate 55 0) (1 - (1 - min ((150:ℚ) / 200) 1) ^ 3) 1, true) :=
    Azure3D.smoothResetTick3D_lt _ ht2
  obtain ⟨m2, hg2, hmap2, hsz2, hinf2⟩ :=
    lerpToFrame_mesh (List.replicate 55 0) (1 - (1 - min ((150:ℚ) / 200) 1) ^ 3) 1 hlen hg1b
  have hv2 : m2.influences 0 = m1.influences 0 +
      (clamp01 ((List.replicate 55 (0:ℚ)).getD 0 0 * 1) - m1.influences 0) *
        (1 - (1 - min ((150:ℚ) / 200) 1) ^ 3) := by
    rw [hinf2]
    exact lerpWrites_write (List.replicate 55 0) 1 _ m1.mapping 0 0 (by simp) m1.influences
      (by rw [hmap1]; decide) (by rw [hmap1]; decide)
  have hread : ((Azure3D.smoothResetTick3D (Azure3D.smoothResetTick3D c6bs3d 100).1
      150).1.meshes.getD 0 default) = m2 := by
    rw [e2]
    dsimp only
    rw [List.getD_eq_getElem?_getD, ← List.get?_eq_getElem?, hg2]
    rfl
  refine ⟨?_, ?_, by norm_num⟩
  · rw [hread, hv2, hv1, hm1, hm2]
    norm_num [c6mesh3d, clamp01, List.getD_eq_getElem?_getD, List.getElem?_replicate,
      min_def, max_def]
  · rw [hm2]
    norm_num [c6mesh3d]

/-- C6, amended (the claim as stated is refuted by `c6_counterexample`):
the two cited neutral-return animations differ per tick.  The
Audio2Face client's tick writes `start[c] * (1 - eased)` with
`eased = 1 - (1-t)^3` and `t = min(elapsed/300, 1)` (equivalently
`start[c] * (1-t)^3`).  The `AzureServices3D` variant's tick instead
lerps each mapped slot from its CURRENT value toward 0 by `eased` (with
`t = min(elapsed/200, 1)`), i.e. `value ← value * (1-t)^3`, compounding
across ticks.  In both, once `t` reaches 1 every animated channel equals
exactly 0 — the 3D variant via the hard `BlendShapeMapper.reset()` its
final tick performs — and the animation stops rescheduling, signalling
completion to external listeners exactly then (and not before). -/
theorem c6_neutral_return_amended (sv : String → ℚ) (st : A2F.State) (e : ℚ)
    (n : String) (hn : n ∈ A2F.arkitShapes)
    (bsm : BlendShapeMapper.State) (e3 : ℚ) (k : Nat) (m : BlendShapeMapper.Mesh)
    (hm : bsm.meshes.get? k = some m) (ai mi : Nat) (hmem : (ai, mi) ∈ m.mapping)
    (hai : ai < 55) (hnd : (m.mapping.map Prod.snd).Nodup) :
    (A2F.smoothResetTick sv st e).1.currentValues n = sv n * (1 - min (e / 300) 1) ^ 3 ∧
    ((300:ℚ) ≤ e →
      (A2F.smoothResetTick sv st e).1.currentValues n = 0 ∧
      (∀ m2 ∈ (A2F.smoothResetTick sv st e).1.meshes, ∀ i,
        idxLookup m2.indices n = some i → m2.influences i = 0) ∧
      (A2F.smoothResetTick sv st e).2 = false) ∧
    (e < 300 → (A2F.smoothResetTick sv st e).2 = true) ∧
    (e3 < 200 →
      (Azure3D.smoothResetTick3D bsm e3).2 = true ∧
      ∃ m2, (Azure3D.smoothResetTick3D bsm e3).1.meshes.get? k = some m2 ∧
        m2.influences mi = m.influences mi * (1 - min (e3 / 200) 1) ^ 3) ∧
    ((200:ℚ) ≤ e3 →
      (Azure3D.smoothResetTick3D bsm e3).2 = false ∧
      ∃ m2, (Azure3D.smoothResetTick3D bsm e3).1.meshes.get? k = some m2 ∧
        m2.size = m.size ∧ ∀ j, j < m.size → m2.influences j = 0) := by
  have hlen : ¬ (List.replicate 55 (0:ℚ)).length < 52 := by simp
  refine ⟨A2F.smoothResetTick_cur sv st e n hn, fun he => ?_,
    fun he => A2F.smoothResetTick_continues sv st e he, fun he3 => ?_, fun he3 => ?_⟩
  · obtain ⟨h1, h2, h3⟩ := A2F.smoothResetTick_done sv st e he
    exact ⟨h1 n hn, fun m2 hm2 i hl => h2 m2 hm2 n hn i hl, h3⟩
  · have ht : min (e3 / 200) 1 < 1 :=
      lt_of_le_of_lt (min_le_left _ _) ((div_lt_one (by norm_num : (0:ℚ) < 200)).mpr he3)
    rw [Azure3D.smoothResetTick3D_lt bsm ht]
    refine ⟨rfl, ?_⟩
    obtain ⟨m2, hg, hmap, hsz, hinf⟩ :=
      lerpToFrame_mesh (List.replicate 55 0) (1 - (1 - min (e3 / 200) 1) ^ 3) 1 hlen hm
    refine ⟨m2, hg, ?_⟩
    rw [hinf, lerpWrites_write (List.replicate 55 0) 1 _ m.mapping ai mi (by simpa using hai)
      m.influences hnd hmem]
    have hz : clamp01 ((List.replicate 55 (0:ℚ)).getD ai 0 * 1) = 0 := by
      have hgd : (List.replicate 55 (0:ℚ)).getD ai 0 = 0 := by
        rw [List.getD_eq_getElem?_getD, List.getElem?_replicate, if_pos hai]
        rfl
      rw [hgd, zero_mul]
      unfold clamp01
      rw [min_eq_right (by norm_num : (0:ℚ) ≤ 1), max_self]
    rw [hz]
    ring
  · have ht : ¬ min (e3 / 200) 1 < 1 := by
      rw [min_eq_right ((one_le_div (by norm_num : (0:ℚ) < 200)).mpr he3)]
      exact lt_irrefl 1
    rw [Azure3D.smoothResetTick3D_ge bsm ht]
    refine ⟨rfl, ?_⟩
    obtain ⟨m1, hg1, hmap1, hsz1, hinf1⟩ :=
      lerpToFrame_mesh (List.replicate 55 0) (1 - (1 - min (e3 / 200) 1) ^ 3) 1 hlen hm
    obtain ⟨m2, hg2, hsz2, hz2⟩ := bsm_reset_mesh hg1
    exact ⟨m2, hg2, by rw [hsz2, hsz1], fun j hj => hz2 j (by rw [hsz1]; exact hj)⟩

/-- Witness for the amended C6: the `jawOpen` channel of the Audio2Face
variant at elapsed 150ms and the single mapped slot of the 3D variant at
elapsed 100ms. -/
theorem c6_amended_witness :
    ("jawOpen") ∈ A2F.arkitShapes ∧
    c6bs3d.meshes.get? 0 = some c6mesh3d ∧
    ((0, 0) : Nat × Nat) ∈ c6mesh3d.mapping ∧
    (0:Nat) < 55 ∧
    ((c6mesh3d.mapping.map Prod.snd).Nodup) ∧
    ((A2F.smoothResetTick (fun _ => 1/2) c6st 150).1.currentValues ("jawOpen") =
        (1/2) * (1 - min ((150:ℚ) / 300) 1) ^ 3 ∧
      ((300:ℚ) ≤ 150 →
        (A2F.smoothResetTick (fun _ => 1/2) c6st 150).1.currentValues ("jawOpen") = 0 ∧
        (∀ m2 ∈ (A2F.smoothResetTick (fun _ => 1/2) c6st 150).1.meshes, ∀ i,
          idxLookup m2.indices ("jawOpen") = some i → m2.influences i = 0) ∧
        (A2F.smoothResetTick (fun _ => 1/2) c6st 150).2 = false) ∧
      ((150:ℚ) < 300 → (A2F.smoothResetTick (fun _ => 1/2) c6st 150).2 = true) ∧
      ((100:ℚ) < 200 →
        (Azure3D.smoothResetTick3D c6bs3d 100).2 = true ∧
        ∃ m2, (Azure3D.smoothResetTick3D c6bs3d 100).1.meshes.get? 0 = some m2 ∧
          m2.influences 0 = c6mesh3d.influences 0 * (1 - min ((100:ℚ) / 200) 1) ^ 3) ∧
      ((200:ℚ) ≤ 100 →
        (Azure3D.smoothResetTick3D c6bs3d 100).2 = false ∧
        ∃ m2, (Azure3D.smoothResetTick3D c6bs3d 100).1.meshes.get? 0 = some m2 ∧
          m2.size = c6mesh3d.size ∧ ∀ j, j < c6mesh3d.size → m2.influences j = 0)) :=
  ⟨by decide, rfl, by decide, by decide, by decide,
    c6_neutral_return_amended (fun _ => 1/2) c6st 150 ("jawOpen") (by decide)
      c6bs3d 100 0 c6mesh3d rfl 0 0 (by decide) (by decide) (by decide)⟩

/-- C8 (confirmed): in fine (dense per-frame) mode the scheduling tick
reschedules itself whenever speech is active and playback is anchored —
in particular even when the read cursor has already consumed every
buffered frame — and stops only after the playback-ended (or
synthesis-canceled) handler has run, which unconditionally clears the
speaking flag so the next tick does not reschedule. -/
theorem c8_fine_loop (s : Azure3D.State) (t0 now : ℚ)
    (hsp : s.isSpeaking = true) (hpb : s.playbackStartTime = some t0)
    (hex : s.blendShapeFrames.length ≤ s.currentFrameIndex) :
    (Azure3D.processBlendShapeFrames s now).2 = true ∧
    (∀ s2 : Azure3D.State, ∀ cap : Nat, ∀ now2 : ℚ,
      (Azure3D.processBlendShapeFrames (Azure3D.synthesisCanceled cap s2) now2).2 = false) := by
  refine ⟨Azure3D.processBlendShapeFrames_reschedules hsp hpb now, ?_⟩
  intro s2 cap now2
  exact Azure3D.processBlendShapeFrames_stopped s2 now2

/-- Witness for C8: a speaking state whose buffer is exhausted. -/
theorem c8_witness :
    c8st.isSpeaking = true ∧ c8st.playbackStartTime = some 2 ∧
    c8st.blendShapeFrames.length ≤ c8st.currentFrameIndex ∧
    ((Azure3D.processBlendShapeFrames c8st 5).2 = true ∧
      (∀ s2 : Azure3D.State, ∀ cap : Nat, ∀ now2 : ℚ,
        (Azure3D.processBlendShapeFrames (Azure3D.synthesisCanceled cap s2) now2).2 = false)) :=
  ⟨by decide, by decide, by decide, c8_fine_loop c8st 2 5 (by decide) (by decide) (by decide)⟩

/-- C9, amended (the claim as stated is refuted by `c9_counterexample`):
`VisemeMapper.reset` zeroes the target influences and, on every mapped
mesh part, every slot recorded for a channel of the viseme vocabulary;
every slot not recorded as a viseme channel — in particular the
jaw/correction channels recorded in `jawIndices` at setup time — keeps
its previous value. -/
theorem c9_reset_viseme_only (st : VisemeMapper.State) (k : Nat) (m : VisemeMapper.Mesh)
    (hm : st.meshes.get? k = some m) :
    (∀ c ∈ VisemeMapper.OCULUS_VISEMES, (VisemeMapper.reset st).targetInfluences c = 0) ∧
    ∃ m2, (VisemeMapper.reset st).meshes.get? k = some m2 ∧
      (∀ c ∈ VisemeMapper.OCULUS_VISEMES, ∀ i,
        idxLookup m.visemeIndices c = some i → m2.influences i = 0) ∧
      (∀ j, (∀ c ∈ VisemeMapper.OCULUS_VISEMES, idxLookup m.visemeIndices c ≠ some j) →
        m2.influences j = m.influences j) := by
  constructor
  · intro c hc
    show (if c ∈ VisemeMapper.OCULUS_VISEMES then 0 else st.targetInfluences c) = 0
    rw [if_pos hc]
  · obtain ⟨m2, hg, _, _, hz, hu⟩ := VisemeMapper.reset_mesh hm
    exact ⟨m2, hg, hz, hu⟩

/-- Counterexample for C9 as stated: after `reset`, the mapped jaw
channel `jawOpen` (slot 0 of `c9mesh`, recorded in `jawIndices` at setup)
still holds 1/2 rather than 0. -/
theorem c9_counterexample :
    ((VisemeMapper.reset c9vm).meshes.getD 0 default).influences 0 = 1/2 ∧
    ((1:ℚ)/2 ≠ 0) :=
  ⟨rfl, by norm_num⟩

/-- Witness for C9: the single mesh of `c9vm`. -/
theorem c9_witness :
    c9vm.meshes.get? 0 = some c9mesh ∧
    ((∀ c ∈ VisemeMapper.OCULUS_VISEMES, (VisemeMapper.reset c9vm).targetInfluences c = 0) ∧
      ∃ m2, (VisemeMapper.reset c9vm).meshes.get? 0 = some m2 ∧
        (∀ c ∈ VisemeMapper.OCULUS_VISEMES, ∀ i,
          idxLookup c9mesh.visemeIndices c = some i → m2.influences i = 0) ∧
        (∀ j, (∀ c ∈ VisemeMapper.OCULUS_VISEMES, idxLookup c9mesh.visemeIndices c ≠ some j) →
          m2.influences j = c9mesh.influences j)) :=
  ⟨rfl, c9_reset_viseme_only c9vm 0 c9mesh rfl⟩

/-- C10 (confirmed): `BlendShapeMapper.reset` writes 0 into every slot of
each mapped mesh's entire influence array — the bound is the array
length, not the recorded mapping — so slots that correspond to no name
of the blendshape vocabulary (externally managed morphs) are zeroed as
well. -/
theorem c10_reset_entire_array (st : BlendShapeMapper.State) (k : Nat)
    (m : BlendShapeMapper.Mesh) (hm : st.meshes.get? k = some m)
    (j : Nat) (hj : j < m.size) :
    ∃ m2, (BlendShapeMapper.reset st).meshes.get? k = some m2 ∧ m2.influences j = 0 := by
  unfold BlendShapeMapper.reset
  apply Exists.intro ({ m with influences := fun j2 => if j2 < m.size then 0 else m.influences j2 })
  constructor
  · show (st.meshes.map _).get? k = _
    rw [List.get?_map, hm]
    rfl
  · show (if j < m.size then (0:ℚ) else m.influences j) = 0
    rw [if_pos hj]

/-- Witness for C10: slot 2 of `c10mesh` corresponds to no vocabulary
entry (its mapping covers only slots 0 and 1), yet it is zeroed. -/
theorem c10_witness :
    c5bs.meshes.get? 0 = some c10mesh ∧ (2:Nat) < c10mesh.size ∧
    (∃ m2, (BlendShapeMapper.reset c5bs).meshes.get? 0 = some m2 ∧ m2.influences 2 = 0) :=
  ⟨rfl, by decide, c10_reset_entire_array c5bs 0 c10mesh rfl 2 (by decide)⟩

/-- C2, amended (the claim as stated is refuted by `c2_counterexample`):
the scheduler applies events strictly in queue (arrival) order, as a
contiguous advance of the read cursor; hence when the buffered events
within one utterance are in non-decreasing `timestampMs` order, the
sequence of pose applications over any run of scheduler ticks is
non-decreasing in `timestampMs`.  Nothing sorts the queue, so an
out-of-order arrival permutation is applied in arrival order. -/
theorem c2_sorted_application (s : AzureViseme.State) (nows : List ℚ)
    (hsorted : s.visemeQueue.Pairwise (fun a b => a.audioOffset ≤ b.audioOffset)) :
    (AzureViseme.runTicks s nows).2.Pairwise (fun a b => a.audioOffset ≤ b.audioOffset) := by
  have hsub := (AzureViseme.runTicks_sublist nows s).trans (List.drop_sublist _ _)
  exact List.Pairwise.sublist hsub hsorted

/-- Witness for C2: two events buffered in timestamp order are applied
in non-decreasing timestamp order. -/
theorem c2_witness :
    c2sorted.visemeQueue.Pairwise (fun a b => a.audioOffset ≤ b.audioOffset) ∧
    (AzureViseme.runTicks c2sorted [30]).2.Pairwise (fun a b => a.audioOffset ≤ b.audioOffset) :=
  ⟨by decide, c2_sorted_application c2sorted [30] (by decide)⟩

/-- Counterexample for C2 as stated: with arrival order (100 ms, 50 ms),
a single tick at elapsed 100 ms applies the events in arrival order —
timestamps (100, 50), which is not non-decreasing. -/
theorem c2_counterexample :
    ((AzureViseme.runTicks c2state [100]).2.map (fun e => e.audioOffset)) = [100, 50] ∧
    ¬ (AzureViseme.runTicks c2state [100]).2.Pairwise
        (fun a b => a.audioOffset ≤ b.audioOffset) := by
  have h100 : (decide ((100:ℚ) ≤ 100 - 0)) = true := by
    simp only [decide_eq_true_eq]
    norm_num
  have h50 : (decide ((50:ℚ) ≤ 100 - 0)) = true := by
    simp only [decide_eq_true_eq]
    norm_num
  have h50b : (decide ((50:ℚ) ≤ 100)) = true := by
    simp only [decide_eq_true_eq]
    norm_num
  have h100b : (decide ((100:ℚ) ≤ 100)) = true := by
    simp only [decide_eq_true_eq]
    norm_num
  have h : (AzureViseme.runTicks c2state [100]).2
      = [{ visemeId := 21, audioOffset := 100 }, { visemeId := 1, audioOffset := 50 }] := by
    simp [AzureViseme.runTicks, AzureViseme.processVisemes, c2state, List.takeWhile,
      h100, h50, h50b, h100b]
  rw [h]
  exact ⟨rfl, by decide⟩

/-- C5, amended (the claim as stated is refuted by `c5_counterexample`):
through the fine blendshape path, every value the write loop stores into
a mesh influence slot is the frame value scaled by the intensity
multiplier and then clamped, so each slot either keeps its previous
value or ends up within [0, 1] — including for out-of-range inputs such
as 1.7 and -0.4.  The coarse viseme path performs no clamping at all. -/
theorem c5_fine_clamped (st : BlendShapeMapper.State) (values : List ℚ) (inten : ℚ)
    (k : Nat) (m : BlendShapeMapper.Mesh) (hm : st.meshes.get? k = some m) (j : Nat) :
    ∃ m2, (BlendShapeMapper.applyFrame st values inten).meshes.get? k = some m2 ∧
      (m2.influences j = m.influences j ∨ (0 ≤ m2.influences j ∧ m2.influences j ≤ 1)) := by
  unfold BlendShapeMapper.applyFrame
  by_cases hlen : values.length < 52
  · rw [if_pos hlen]
    exact ⟨m, hm, Or.inl rfl⟩
  · rw [if_neg hlen]
    apply Exists.intro ({ m with influences :=
      BlendShapeMapper.applyFrameWrites values inten m.mapping m.influences })
    constructor
    · show (st.meshes.map _).get? k = _
      rw [List.get?_map, hm]
      rfl
    · exact applyFrameWrites_inv values inten m.mapping m.influences j

/-- Witness for C5: a 52-value frame whose first entries are 1.7 and
-0.4, fed through the fine path on `c10mesh`. -/
theorem c5_witness :
    c5bs.meshes.get? 0 = some c10mesh ∧ c5frame.length = 52 ∧
    (∃ m2, (BlendShapeMapper.applyFrame c5bs c5frame 1).meshes.get? 0 = some m2 ∧
      (m2.influences 0 = c10mesh.influences 0 ∨
        (0 ≤ m2.influences 0 ∧ m2.influences 0 ≤ 1))) :=
  ⟨rfl, by decide, c5_fine_clamped c5bs c5frame 1 0 c10mesh rfl 0⟩

/-- Counterexample for C5 as stated: the coarse path never clamps — two
blend steps at blend factor 0.4 toward an out-of-range weight 1.7 store
1.088 (= 136/125 > 1) into the mesh influence array. -/
theorem c5_counterexample :
    ∃ m2, (VisemeMapper.blendToViseme (VisemeMapper.blendToViseme vmOneMesh 1 (2/5) (17/10))
        1 (2/5) (17/10)).meshes.get? 0 = some m2 ∧
      m2.influences 0 = 136/125 ∧ ¬ ((136:ℚ)/125 ≤ 1) := by
  have hp : VisemeMapper.AZURE_TO_OCULUS 1 = some ("viseme_aa") := by decide
  have hwf : aaMesh.wfIdx := by decide
  have hc : ("viseme_aa") ∈ VisemeMapper.OCULUS_VISEMES := by decide
  have hl : idxLookup aaMesh.visemeIndices ("viseme_aa") = some 0 := by decide
  have hns : (vmOneMesh.corrections.teethSync && vmOneMesh.headIdx.isSome &&
      vmOneMesh.teethIdx.isSome) = false := by decide
  obtain ⟨m1, hm1, hv1, hvi1, hji1⟩ :=
    VisemeMapper.blendToViseme_mesh_noSync hp hns (2/5) (17/10)
      (rfl : vmOneMesh.meshes.get? 0 = some aaMesh) hwf hc hl
  obtain ⟨hhx, htx, hcx⟩ := VisemeMapper.blendToViseme_fields hp vmOneMesh (2/5) (17/10)
  have hns1 : ((VisemeMapper.blendToViseme vmOneMesh 1 (2/5) (17/10)).corrections.teethSync &&
      (VisemeMapper.blendToViseme vmOneMesh 1 (2/5) (17/10)).headIdx.isSome &&
      (VisemeMapper.blendToViseme vmOneMesh 1 (2/5) (17/10)).teethIdx.isSome) = false := by
    rw [hhx, htx, hcx]
    exact hns
  have hwf1 : m1.wfIdx := VisemeMapper.wfIdx_of_eq hvi1 hji1 hwf
  have hl1 : idxLookup m1.visemeIndices ("viseme_aa") = some 0 := by
    rw [hvi1]
    exact hl
  obtain ⟨m2, hm2, hv2, hvi2, hji2⟩ :=
    VisemeMapper.blendToViseme_mesh_noSync hp hns1 (2/5) (17/10) hm1 hwf1 hc hl1
  refine ⟨m2, hm2, ?_, by norm_num⟩
  rw [hv2, VisemeMapper.blendToViseme_ti hp, if_pos hc]
  norm_num [vmOneMesh]

/-- C7, amended (the claim as stated is refuted by `c7_counterexample`):
after an apply, (1) every mesh part that exposes a viseme channel `c`
reads exactly the same number, `targetInfluences c`; (2) a jaw channel
other than `jawForward` shared by the head and teeth meshes reads the
same number on both; but (3) for `jawForward` the teeth part stores the
head's already-dampened value multiplied by the dampening again, so the
head and teeth read numbers that differ by the dampening factor. -/
theorem c7_shared_channels (st : VisemeMapper.State) (h t : Nat)
    (hh : st.headIdx = some h) (ht : st.teethIdx = some t) (hne : h ≠ t)
    (hsync : st.corrections.teethSync = true)
    (headM teethM : VisemeMapper.Mesh)
    (hhm : st.meshes.get? h = some headM) (htm : st.meshes.get? t = some teethM)
    (hwf : ∀ m ∈ st.meshes, m.wfIdx) :
    (∀ c ∈ VisemeMapper.OCULUS_VISEMES, ∀ k : Nat, ∀ m2 : VisemeMapper.Mesh, ∀ i : Nat,
      (VisemeMapper.applyToMeshes st).meshes.get? k = some m2 →
      idxLookup m2.visemeIndices c = some i →
      m2.influences i = st.targetInfluences c) ∧
    (∀ jn ∈ VisemeMapper.JAW_TARGETS, jn ≠ VisemeMapper.jawForwardName →
      ∀ hi tix : Nat, ∀ rh rt : VisemeMapper.Mesh,
      idxLookup headM.jawIndices jn = some hi →
      idxLookup teethM.jawIndices jn = some tix →
      (VisemeMapper.applyToMeshes st).meshes.get? h = some rh →
      (VisemeMapper.applyToMeshes st).meshes.get? t = some rt →
      rt.influences tix = rh.influences hi) ∧
    (∀ hi tix : Nat, ∀ rh rt : VisemeMapper.Mesh,
      idxLookup headM.jawIndices VisemeMapper.jawForwardName = some hi →
      idxLookup teethM.jawIndices VisemeMapper.jawForwardName = some tix →
      (VisemeMapper.applyToMeshes st).meshes.get? h = some rh →
      (VisemeMapper.applyToMeshes st).meshes.get? t = some rt →
      rt.influences tix = rh.influences hi * st.corrections.jawForwardDampen) := by
  have hwfh : headM.wfIdx := hwf headM (List.get?_mem hhm)
  have hwft : teethM.wfIdx := hwf teethM (List.get?_mem htm)
  set stepF := VisemeMapper.applyMeshStep st.targetInfluences st.corrections.jawForwardDampen
    with hstep
  set head2 := stepF headM with hhead2
  set teeth2 := stepF teethM with hteeth2
  set f2 := writeChannels (VisemeMapper.syncVisIdx head2 teeth2) (VisemeMapper.syncVisVal head2)
    VisemeMapper.OCULUS_VISEMES (writeChannels (VisemeMapper.syncJawIdx head2 teeth2)
      (VisemeMapper.syncJawVal head2 st.corrections.jawForwardDampen) VisemeMapper.JAW_TARGETS
      teeth2.influences) with hf2
  set newTeeth := ({ teeth2 with influences := f2 } : VisemeMapper.Mesh) with hnt
  have htlen : t < st.meshes.length := by
    rw [List.get?_eq_getElem?] at htm
    exact (List.getElem?_eq_some.mp htm).1
  have hres : VisemeMapper.applyToMeshes st
      = { st with meshes := (st.meshes.map stepF).set t newTeeth } := by
    unfold VisemeMapper.applyToMeshes
    have hcond : (st.corrections.teethSync && st.headIdx.isSome && st.teethIdx.isSome)
        = true := by
      rw [hh, ht, hsync]
      rfl
    rw [@VisemeMapper.applyToMeshesSync_true { st with meshes := st.meshes.map stepF } hcond]
    have hhm2 : (st.meshes.map stepF).get? h = some head2 := by
      rw [List.get?_map, hhm]
      rfl
    have htm2 : (st.meshes.map stepF).get? t = some teeth2 := by
      rw [List.get?_map, htm]
      rfl
    rw [@VisemeMapper.syncTeethWithHead_eq { st with meshes := st.meshes.map stepF } h t
      head2 teeth2 hh ht hhm2 htm2]
  have hgetT : ((st.meshes.map stepF).set t newTeeth).get? t = some newTeeth := by
    rw [List.get?_eq_getElem?]
    exact List.getElem?_set_eq_of_lt newTeeth (by rw [List.length_map]; exact htlen)
  have hgetK : ∀ k : Nat, k ≠ t →
      ((st.meshes.map stepF).set t newTeeth).get? k = (st.meshes.get? k).map stepF := by
    intro k hk
    rw [List.get?_eq_getElem?, List.getElem?_set_ne (fun he => hk he.symm),
      ← List.get?_eq_getElem?, List.get?_map]
  refine ⟨?_, ?_, ?_⟩
  · intro c hc k m2 i hg hl
    rw [hres] at hg
    by_cases hkt : k = t
    · subst hkt
      rw [show ({ st with meshes := (st.meshes.map stepF).set k newTeeth } :
          VisemeMapper.State).meshes = (st.meshes.map stepF).set k newTeeth from rfl,
        hgetT] at hg
      have hm2 : m2 = newTeeth := (Option.some.inj hg).symm
      subst hm2
      have hlt : idxLookup teethM.visemeIndices c = some i := by
        rw [← VisemeMapper.applyMeshStep_vi st.targetInfluences
          st.corrections.jawForwardDampen teethM]
        exact hl
      exact VisemeMapper.syncWrites_viseme hwfh hwft st.targetInfluences
        st.corrections.jawForwardDampen hc hlt
    · rw [show ({ st with meshes := (st.meshes.map stepF).set t newTeeth } :
          VisemeMapper.State).meshes = (st.meshes.map stepF).set t newTeeth from rfl,
        hgetK k hkt] at hg
      obtain ⟨m0, hm0, hm0e⟩ := Option.map_eq_some'.mp hg
      have hm2 : m2 = stepF m0 := hm0e.symm
      subst hm2
      have hwfk : m0.wfIdx := hwf m0 (List.get?_mem hm0)
      have hl0 : idxLookup m0.visemeIndices c = some i := by
        rw [← VisemeMapper.applyMeshStep_vi st.targetInfluences
          st.corrections.jawForwardDampen m0]
        exact hl
      exact VisemeMapper.applyMeshStep_viseme hwfk _ _ hc hl0
  · intro jn hjn hneq hi tix rh rt hlh hlt hgh hgt
    rw [hres] at hgh hgt
    rw [show ({ st with meshes := (st.meshes.map stepF).set t newTeeth } :
        VisemeMapper.State).meshes = (st.meshes.map stepF).set t newTeeth from rfl] at hgh hgt
    rw [hgetK h hne, hhm] at hgh
    rw [hgetT] at hgt
    have hrh : rh = stepF headM := by
      have : some (stepF headM) = some rh := hgh
      exact (Option.some.inj this).symm
    have hrt : rt = newTeeth := (Option.some.inj hgt).symm
    subst hrh
    subst hrt
    have hv : newTeeth.influences tix = if jn = VisemeMapper.jawForwardName then
        headM.influences hi * st.corrections.jawForwardDampen * st.corrections.jawForwardDampen
        else headM.influences hi :=
      VisemeMapper.syncWrites_jaw hwfh hwft st.targetInfluences
        st.corrections.jawForwardDampen hjn hlh hlt
    have hrv : (stepF headM).influences hi = if jn = VisemeMapper.jawForwardName then
        headM.influences hi * st.corrections.jawForwardDampen else headM.influences hi :=
      VisemeMapper.applyMeshStep_jaw hwfh st.targetInfluences
        st.corrections.jawForwardDampen hlh
    rw [hv, hrv, if_neg hneq, if_neg hneq]
  · intro hi tix rh rt hlh hlt hgh hgt
    rw [hres] at hgh hgt
    rw [show ({ st with meshes := (st.meshes.map stepF).set t newTeeth } :
        VisemeMapper.State).meshes = (st.meshes.map stepF).set t newTeeth from rfl] at hgh hgt
    rw [hgetK h hne, hhm] at hgh
    rw [hgetT] at hgt
    have hrh : rh = stepF headM := by
      have : some (stepF headM) = some rh := hgh
      exact (Option.some.inj this).symm
    have hrt : rt = newTeeth := (Option.some.inj hgt).symm
    subst hrh
    subst hrt
    have hjf : VisemeMapper.jawForwardName ∈ VisemeMapper.JAW_TARGETS := by decide
    have hv : newTeeth.influences tix = if VisemeMapper.jawForwardName = VisemeMapper.jawForwardName then
        headM.influences hi * st.corrections.jawForwardDampen * st.corrections.jawForwardDampen
        else headM.influences hi :=
      VisemeMapper.syncWrites_jaw hwfh hwft st.targetInfluences
        st.corrections.jawForwardDampen hjf hlh hlt
    have hrv : (stepF headM).influences hi = if VisemeMapper.jawForwardName = VisemeMapper.jawForwardName then
        headM.influences hi * st.corrections.jawForwardDampen else headM.influences hi :=
      VisemeMapper.applyMeshStep_jaw hwfh st.targetInfluences
        st.corrections.jawForwardDampen hlh
    rw [hv, hrv, if_pos rfl, if_pos rfl]

/-- Counterexample for C7 as stated: with `jawForward` at 3/5 on both the
head and the teeth mesh, one apply leaves the head reading 9/50
(dampened once) and the teeth reading 27/500 (dampened twice) — not the
same number on every part exposing the channel. -/
theorem c7_counterexample :
    ((VisemeMapper.applyToMeshes c7vm).meshes.getD 0 default).influences 1 = 9/50 ∧
    ((VisemeMapper.applyToMeshes c7vm).meshes.getD 1 default).influences 1 = 27/500 ∧
    ((9:ℚ)/50 ≠ 27/500) := by
  have hwfc : c7cmesh.wfIdx := by decide
  have hlh : idxLookup c7cmesh.jawIndices VisemeMapper.jawForwardName = some 1 := by decide
  have hjf : VisemeMapper.jawForwardName ∈ VisemeMapper.JAW_TARGETS := by decide
  refine ⟨?_, ?_, by norm_num⟩
  · have e0 : ((VisemeMapper.applyToMeshes c7vm).meshes.getD 0 default).influences 1
        = (VisemeMapper.applyMeshStep c7vm.targetInfluences
            c7vm.corrections.jawForwardDampen c7cmesh).influences 1 := rfl
    rw [e0, VisemeMapper.applyMeshStep_jaw hwfc c7vm.targetInfluences
      c7vm.corrections.jawForwardDampen hlh, if_pos rfl]
    norm_num [c7cmesh, c7vm]
  · have e1 : ((VisemeMapper.applyToMeshes c7vm).meshes.getD 1 default).influences 1
        = writeChannels
            (VisemeMapper.syncVisIdx
              (VisemeMapper.applyMeshStep c7vm.targetInfluences c7vm.corrections.jawForwardDampen c7cmesh)
              (VisemeMapper.applyMeshStep c7vm.targetInfluences c7vm.corrections.jawForwardDampen c7cmesh))
            (VisemeMapper.syncVisVal
              (VisemeMapper.applyMeshStep c7vm.targetInfluences c7vm.corrections.jawForwardDampen c7cmesh))
            VisemeMapper.OCULUS_VISEMES
            (writeChannels
              (VisemeMapper.syncJawIdx
                (VisemeMapper.applyMeshStep c7vm.targetInfluences c7vm.corrections.jawForwardDampen c7cmesh)
                (VisemeMapper.applyMeshStep c7vm.targetInfluences c7vm.corrections.jawForwardDampen c7cmesh))
              (VisemeMapper.syncJawVal
                (VisemeMapper.applyMeshStep c7vm.targetInfluences c7vm.corrections.jawForwardDampen c7cmesh)
                c7vm.corrections.jawForwardDampen)
              VisemeMapper.JAW_TARGETS
              (VisemeMapper.applyMeshStep c7vm.targetInfluences c7vm.corrections.jawForwardDampen c7cmesh).influences) 1 := rfl
    rw [e1, VisemeMapper.syncWrites_jaw hwfc hwfc c7vm.targetInfluences
      c7vm.corrections.jawForwardDampen hjf hlh hlh, if_pos rfl]
    norm_num [c7cmesh, c7vm]

/-- Witness for C7: head and teeth meshes with distinct slot layouts
sharing `viseme_aa`, `jawOpen` and `jawForward`; the shared `jawOpen`
slots agree after the apply, and the teeth `jawForward` slot reads the
head's value times the dampening. -/
theorem c7_witness :
    c7wit.headIdx = some 0 ∧ c7wit.teethIdx = some 1 ∧ (0:Nat) ≠ 1 ∧
    c7wit.corrections.teethSync = true ∧
    c7wit.meshes.get? 0 = some c7head ∧ c7wit.meshes.get? 1 = some c7teeth ∧
    (∀ m ∈ c7wit.meshes, m.wfIdx) ∧
    ((VisemeMapper.applyToMeshes c7wit).meshes.getD 1 default).influences 3
      = ((VisemeMapper.applyToMeshes c7wit).meshes.getD 0 default).influences 1 ∧
    ((VisemeMapper.applyToMeshes c7wit).meshes.getD 1 default).influences 4
      = ((VisemeMapper.applyToMeshes c7wit).meshes.getD 0 default).influences 2
        * c7wit.corrections.jawForwardDampen := by
  obtain ⟨h1, h2, h3⟩ := c7_shared_channels c7wit 0 1 rfl rfl (by decide) rfl c7head c7teeth
    rfl rfl (by decide)
  refine ⟨rfl, rfl, by decide, rfl, rfl, rfl, by decide, ?_, ?_⟩
  · exact h2 ("jawOpen") (by decide) (by decide) 1 3
      ((VisemeMapper.applyToMeshes c7wit).meshes.getD 0 default)
      ((VisemeMapper.applyToMeshes c7wit).meshes.getD 1 default)
      (by decide) (by decide) rfl rfl
  · exact h3 2 4
      ((VisemeMapper.applyToMeshes c7wit).meshes.getD 0 default)
      ((VisemeMapper.applyToMeshes c7wit).meshes.getD 1 default)
      (by decide) (by decide) rfl rfl

end VisemeSync
